import Mathlib

/-!
Shallow embedding of the ONDC MCP chat frontend streaming pipeline:
the SSE-consuming hook `useChatStream.sendMessage` (frame decoding, the
sentinel check, dispatch by event kind, the completion and error
callbacks) and the transcript reconciliation handlers of the chat screen
controller (`handleThinking`, `handleToolStart`, `handleConversationChunk`,
`handleResponse`, `handleRawProducts`, `handleRawCart`,
`removeThinkingMessages`, `handleStreamError`, `handleStreamComplete`,
`sendMessage`).

Modelling conventions (translation of JavaScript semantics):
- `string | undefined` and `string | null` fields become `Option String`.
- Strict equality `m.streamId === currentStreamIdRef.current` compares a
  possibly-`undefined` field with a possibly-`null` ref; `undefined === null`
  is `false` in JavaScript, so the comparison is `true` only when both sides
  are present and equal strings (`streamEq` below).
- `x || y` on strings treats the empty string as falsy (`jsOrS`, `jsOrStr`);
  on numbers it treats `0` as falsy (`jsOrQ`, `jsOrQv`).
- `x ?? y` is plain `Option.getD` / `<|>`.
- JavaScript numbers are modelled as exact rationals `ℚ`.
- `Date.now()` and `new Date().toISOString()` are threaded in as explicit
  `now`/`nowIso` arguments; they only feed entry identifiers and timestamps,
  which no reconciliation decision reads.
- React `setX` state updates are explicit state passing; functional
  `setChats(prev => ...)` updaters read the passed state.  The one place the
  code reads the captured `chats` variable directly (`handleStreamError`)
  is modelled as reading the state at handler entry.
-/

namespace OndcMcp

/-! ## JavaScript string primitives -/

/-- Whitespace test used by `trim`. -/
def charWS (c : Char) : Bool := c.isWhitespace

/-- Model of `String.prototype.trim`: strip leading and trailing whitespace. -/
def jsTrimList (l : List Char) : List Char :=
  ((l.dropWhile charWS).reverse.dropWhile charWS).reverse

/-- Model of `line.trim()` on a string. -/
def jsTrim (s : String) : String := String.mk (jsTrimList s.data)

/-- Model of `s.startsWith(p)` on character lists (first argument `p`). -/
def listStarts : List Char → List Char → Bool
  | [], _ => true
  | _ :: _, [] => false
  | a :: p, b :: s => a == b && listStarts p s

/-- Model of `s.startsWith(p)`. -/
def jsStarts (p s : String) : Bool := listStarts p.data s.data

/-- Occurrence of `p` as a contiguous run inside a character list. -/
def hasSubList (p : List Char) : List Char → Bool
  | [] => p.isEmpty
  | c :: rest => listStarts p (c :: rest) || hasSubList p rest

/-- Model of `s.includes(sub)`. -/
def jsIncludes (s sub : String) : Bool := hasSubList sub.data s.data

/-- Model of `s.substring(n)` for an ASCII-prefixed cut point. -/
def jsDrop (n : Nat) (s : String) : String := String.mk (s.data.drop n)

/-- Model of `a?.includes(sub)` coerced to a boolean (`undefined` is falsy). -/
def includesO (o : Option String) (sub : String) : Bool :=
  match o with
  | some s => jsIncludes s sub
  | none => false

/-- Model of `x || y` where `x : string | undefined` and the fallback is optional:
the empty string is falsy. -/
def jsOrStr (x y : Option String) : Option String :=
  match x with
  | some s => if s == "" then y else some s
  | none => y

/-- Model of `x || y` where `x : string | undefined` and the fallback is a string. -/
def jsOrS (x : Option String) (y : String) : String :=
  match x with
  | some s => if s == "" then y else s
  | none => y

/-- Model of `v || y` on two plain strings. -/
def jsOrSv (v y : String) : String := if v == "" then y else v

/-- Model of `x || y` where `x : number | undefined`: `0` is falsy. -/
def jsOrQ (x : Option ℚ) (y : ℚ) : ℚ :=
  match x with
  | some v => if v == 0 then y else v
  | none => y

/-- Model of `v || y` on two plain numbers. -/
def jsOrQv (v y : ℚ) : ℚ := if v == 0 then y else v

/-- Strict equality between the `streamId` of a transcript entry
(`string | undefined`) and `currentStreamIdRef.current` (`string | null`).
`undefined === null` is `false`, so both sides must be present. -/
def streamEq (msid cur : Option String) : Bool :=
  match msid, cur with
  | some a, some b => a == b
  | _, _ => false

/-! ## Data model (from the TypeScript interfaces) -/

/-- The `Product` shape from `product.ts` (the transformed shape). -/
structure Provider where
  id : String
  name : String
  delivery_available : Bool
  deriving Repr, DecidableEq

structure Product where
  id : String
  name : String
  description : String
  price : ℚ
  category : String
  provider : Provider
  images : List String
  deriving Repr, DecidableEq

/-- The `CartItem` shape as built by `transformRawCartSummary`. -/
structure CartItem where
  id : String
  local_id : String
  name : String
  quantity : ℚ
  price : ℚ
  total_price : ℚ
  provider_id : String
  provider_name : String
  location_id : String
  fulfillment_id : String
  category : String
  currency : String
  image_url : String
  deriving Repr, DecidableEq

structure CartContext where
  items : List CartItem
  total_items : ℚ
  total_value : ℚ
  is_empty : Bool
  ready_for_checkout : Bool
  deriving Repr, DecidableEq

structure QuoteData where
  providers : List String
  deriving Repr, DecidableEq

structure JourneyContext where
  stage : String
  next_operations : Option (List String) := none
  deriving Repr, DecidableEq

structure OrderData where
  order_id : String
  status : String
  total_amount : ℚ
  currency : String
  customer_name : String
  delivery_address : String
  deriving Repr, DecidableEq

structure ConfirmContext where
  order_id : String
  order_confirmed : Bool
  total_amount : ℚ
  order_status : String
  deriving Repr, DecidableEq

structure SimpleData where
  confirm_context : Option ConfirmContext := none
  deriving Repr, DecidableEq

structure ErrorData where
  success : Bool
  error_type : String
  recovery_action : Option String := none
  retry_possible : Option Bool := none
  message : String
  deriving Repr, DecidableEq

/-- The `ContextType` field values. -/
inductive ContextType where
  | success_message
  | search_results
  | cart_view
  | checkout_stage
  | error_message
  | order_confirmation
  deriving Repr, DecidableEq

/-- The data object of `ChatApiResponse`, restricted to the fields the screen
controller reads. -/
structure RespData where
  success : Option Bool := none
  products : Option (List Product) := none
  cart_context : Option CartContext := none
  journey_context : Option JourneyContext := none
  quote_data : Option QuoteData := none
  simple_data : Option SimpleData := none
  deriving Repr, DecidableEq

/-- The `ChatApiResponse` record as assembled inside `handleResponse`.  The `response`
field is optional because `response.content` is accessed with `?.` in the
source and may be absent at runtime. -/
structure ChatApiResponse where
  response : Option String := none
  session_id : String
  device_id : String
  timestamp : String
  data : Option RespData := none
  context_type : Option ContextType := none
  deriving Repr, DecidableEq

/-- Transcript entry kind tags (the `type` field of `ChatMessage`). -/
inductive MsgType where
  | user
  | bot
  | bot_thinking
  | bot_tool_executing
  | bot_conversation_chunk
  | bot_product_list
  | bot_cart_view
  | bot_checkout_stage
  | bot_error
  | bot_order_confirmation
  | bot_success
  | bot_payment_initiated
  deriving Repr, DecidableEq

/-- The `ChatMessage` record: the TypeScript discriminated union flattened into one
record with optional kind-specific payloads. -/
structure ChatMessage where
  id : String
  type : MsgType
  content : Option String := none
  streamId : Option String := none
  tool : Option String := none
  status : Option String := none
  stage : Option String := none
  products : Option (List Product) := none
  cartContext : Option CartContext := none
  quoteData : Option QuoteData := none
  journeyContext : Option JourneyContext := none
  orderData : Option OrderData := none
  error : Option ErrorData := none
  message : Option String := none
  nextOperations : Option (List String) := none
  orderId : Option String := none
  amount : Option ℚ := none
  currency : Option String := none
  deriving Repr, DecidableEq

/-- The `ChatSession` record. -/
structure ChatSession where
  id : String
  title : String
  messages : List ChatMessage
  deriving Repr, DecidableEq

/-- The header cart summary state. -/
structure CartState where
  itemCount : ℚ
  total : ℚ
  deriving Repr, DecidableEq

/-- The React state of the chat screen controller. -/
structure ChatState where
  chats : List ChatSession
  activeChatId : String
  sessionId : Option String
  currentStreamId : Option String
  cartState : CartState
  isLoading : Bool
  deriving Repr, DecidableEq

/-! ## Raw wire payloads (`RawProduct`, `RawCartItem`, `RawCartSummary`) -/

/-- An element of a raw `images` array: the API sends either a plain URL
string or an object carrying a `url` field. -/
inductive ImageVal where
  | str (s : String)
  | obj (url : Option String)
  deriving Repr, DecidableEq

structure ItemPrice where
  value : ℚ
  deriving Repr, DecidableEq

structure ItemDescriptor where
  name : Option String := none
  short_desc : Option String := none
  long_desc : Option String := none
  images : Option (List ImageVal) := none
  deriving Repr, DecidableEq

structure ItemDetails where
  descriptor : Option ItemDescriptor := none
  price : Option ItemPrice := none
  category_id : Option String := none
  deriving Repr, DecidableEq

structure ProviderDescriptor where
  name : Option String := none
  deriving Repr, DecidableEq

structure ProviderDetails where
  id : String
  descriptor : Option ProviderDescriptor := none
  deriving Repr, DecidableEq

/-- The untyped `(rawProduct as any).provider` object. -/
structure LooseProvider where
  id : Option String := none
  descriptor : Option ProviderDescriptor := none
  deriving Repr, DecidableEq

structure BppDetails where
  name : Option String := none
  deriving Repr, DecidableEq

/-- A raw `category` value: a plain string or an object with a name. -/
inductive CategoryVal where
  | str (s : String)
  | obj (name : Option String) (catId : Option String)
  deriving Repr, DecidableEq

structure RawProduct where
  item_details : Option ItemDetails := none
  provider_details : Option ProviderDetails := none
  id : String
  name : Option String := none
  description : Option String := none
  long_description : Option String := none
  price : Option ItemPrice := none
  images : Option (List ImageVal) := none
  category : Option CategoryVal := none
  provider_id : Option String := none
  provider_name : Option String := none
  provider : Option LooseProvider := none
  bpp_details : Option BppDetails := none
  deriving Repr, DecidableEq

structure SummaryProviderDescriptor where
  name : String
  deriving Repr, DecidableEq

structure SummaryProvider where
  id : String
  descriptor : Option SummaryProviderDescriptor := none
  deriving Repr, DecidableEq

structure RawCartSummaryItem where
  id : String
  name : String
  price : ℚ
  quantity : ℚ
  category : String
  image_url : Option String := none
  description : Option String := none
  provider : Option SummaryProvider := none
  provider_id : String
  location_id : String
  fulfillment_id : String
  subtotal : ℚ
  deriving Repr, DecidableEq

structure RawCartSummary where
  items : Option (List RawCartSummaryItem) := none
  total_items : Option ℚ := none
  total_value : Option ℚ := none
  is_empty : Option Bool := none
  deriving Repr, DecidableEq

structure RCTagEntry where
  code : Option String := none
  value : Option String := none
  deriving Repr, DecidableEq

structure RCTag where
  code : Option String := none
  list : Option (List RCTagEntry) := none
  deriving Repr, DecidableEq

structure RCDescriptor where
  name : Option String := none
  short_desc : Option String := none
  long_desc : Option String := none
  images : Option (List String) := none
  deriving Repr, DecidableEq

structure RCPrice where
  value : Option ℚ := none
  deriving Repr, DecidableEq

structure RCQuantity where
  count : Option ℚ := none
  deriving Repr, DecidableEq

structure RCProduct where
  descriptor : Option RCDescriptor := none
  price : Option RCPrice := none
  category_id : Option String := none
  location_id : Option String := none
  fulfillment_id : Option String := none
  subtotal : Option ℚ := none
  quantity : Option RCQuantity := none
  tags : Option (List RCTag) := none
  deriving Repr, DecidableEq

structure RCProvider where
  id : Option String := none
  descriptor : Option RCDescriptor := none
  deriving Repr, DecidableEq

structure RCItemInner where
  id : Option String := none
  product : Option RCProduct := none
  provider : Option RCProvider := none
  deriving Repr, DecidableEq

/-- The `RawCartItem` record: accessed in `handleRawCart` exclusively through `?.` and
`??` guards, so every field is optional here. -/
structure RawCartItem where
  id : Option String := none
  count : Option ℚ := none
  item : Option RCItemInner := none
  deriving Repr, DecidableEq

/-! ## `transformRawProduct` -/

/-- Image normalisation inside `transformRawProduct`: a string passes
through; an object contributes its `url` when truthy; anything else maps to
the empty string. -/
def imageEntryUrl : ImageVal → String
  | .str s => s
  | .obj u =>
    match u with
    | some url => if url == "" then "" else url
    | none => ""

/-- Model of `x || y` on arrays: arrays are always truthy in JavaScript, so only a
missing field falls through. -/
def jsOrArr {α : Type} (x : Option (List α)) (y : List α) : List α :=
  match x with
  | some l => l
  | none => y

/-- The `categoryString` computation of `transformRawProduct`. -/
def categoryString (rp : RawProduct) : String :=
  match rp.category with
  | some (.str s) =>
    if s == "" then
      match rp.item_details.bind ItemDetails.category_id with
      | some cid => if cid == "" then "Uncategorized" else cid
      | none => "Uncategorized"
    else s
  | some (.obj n _) =>
    match n with
    | some nm => if nm == "" then "Uncategorized" else nm
    | none => "Uncategorized"
  | none =>
    match rp.item_details.bind ItemDetails.category_id with
    | some cid => if cid == "" then "Uncategorized" else cid
    | none => "Uncategorized"

/-- Translation of `transformRawProduct`.  The `try` body is total in this model, so the
`catch` fallback product is unreachable and omitted. -/
def transformRawProduct (rp : RawProduct) : Product :=
  let providerId :=
    jsOrS rp.provider_id
      (jsOrS (rp.provider_details.map ProviderDetails.id)
        (jsOrS (rp.provider.bind LooseProvider.id) "unknown"))
  let providerName :=
    jsOrS rp.provider_name
      (jsOrS (rp.provider_details.bind fun pd => pd.descriptor.bind ProviderDescriptor.name)
        (jsOrS (rp.provider.bind fun p => p.descriptor.bind ProviderDescriptor.name)
          (jsOrS (rp.bpp_details.bind BppDetails.name) "Unknown Provider")))
  let productImages :=
    jsOrArr rp.images
      (jsOrArr (rp.item_details.bind fun d => d.descriptor.bind ItemDescriptor.images) [])
  let images :=
    if productImages.length > 0 then
      (productImages.map imageEntryUrl).filter fun url => url != "" && jsTrim url != ""
    else []
  { id := rp.id
    name := jsOrS rp.name
      (jsOrS (rp.item_details.bind fun d => d.descriptor.bind ItemDescriptor.name) "Unnamed Product")
    description := jsOrS rp.description
      (jsOrS rp.long_description
        (jsOrS (rp.item_details.bind fun d => d.descriptor.bind ItemDescriptor.short_desc)
          (jsOrS (rp.item_details.bind fun d => d.descriptor.bind ItemDescriptor.long_desc) "")))
    price := jsOrQ (rp.price.map ItemPrice.value)
      (jsOrQ ((rp.item_details.bind ItemDetails.price).map ItemPrice.value) 0)
    category := categoryString rp
    provider := { id := providerId, name := providerName, delivery_available := true }
    images := images }

/-! ## `transformRawCartSummary` -/

/-- One item of `transformRawCartSummary`. -/
def transformCartItem (item : RawCartSummaryItem) : CartItem :=
  { id := item.id
    local_id := item.id
    name := item.name
    quantity := item.quantity
    price := item.price
    total_price := item.subtotal
    provider_id := item.provider_id
    provider_name :=
      jsOrS (item.provider.bind fun p => p.descriptor.map SummaryProviderDescriptor.name)
        (jsOrS (item.provider.map fun p => (p.id.splitOn "_").getLastD "") "Unknown Provider")
    location_id := item.location_id
    fulfillment_id := item.fulfillment_id
    category := item.category
    currency := "INR"
    image_url := jsOrS item.image_url "" }

def transformRawCartSummary (raw : RawCartSummary) : CartContext :=
  let cartItems := (jsOrArr raw.items []).map transformCartItem
  { items := cartItems
    total_items := jsOrQ raw.total_items 0
    total_value := jsOrQ raw.total_value 0
    is_empty :=
      match raw.is_empty with
      | some b => b
      | none => cartItems.length == 0
    ready_for_checkout :=
      (match raw.is_empty with | some b => !b | none => true) && cartItems.length > 0 }

/-! ## Cart summary normalisation inside `handleRawCart` -/

/-- Translation of `extractFirstImageUrl`. -/
def extractFirstImageUrl (product : RCProduct) : Option String :=
  match product.descriptor.bind RCDescriptor.images with
  | some (u :: _) => some u
  | _ =>
    match product.tags with
    | some tags =>
      match tags.find? (fun t => t.code == some "image") with
      | some imageTag =>
        match imageTag.list.bind (fun l => l.find? fun e => e.code == some "url") with
        | some urlEntry =>
          match urlEntry.value with
          | some v => if v == "" then none else some v
          | none => none
        | none => none
      | none => none
    | none => none

/-- One synthesized summary item (the `cartItems.map` body in
`handleRawCart`). -/
def synthesizeCartItem (now : Nat) (ci : RawCartItem) : RawCartSummaryItem :=
  let product := (ci.item.bind RCItemInner.product).getD {}
  let provider := (ci.item.bind RCItemInner.provider).getD {}
  let quantityFromItem := jsOrQ (ci.count <|> (product.quantity.bind RCQuantity.count)) 1
  let priceValue := jsOrQ (product.price.bind RCPrice.value) 0
  let subtotalValue := product.subtotal.getD (priceValue * quantityFromItem)
  { id := ((ci.item.bind RCItemInner.id) <|> ci.id).getD (toString now)
    name := (product.descriptor.bind RCDescriptor.name).getD "Item"
    price := priceValue
    quantity := quantityFromItem
    category := product.category_id.getD "Uncategorized"
    image_url := extractFirstImageUrl product
    description :=
      (product.descriptor.bind RCDescriptor.short_desc) <|>
        (product.descriptor.bind RCDescriptor.long_desc)
    provider := some
      { id := provider.id.getD ""
        descriptor := some
          { name := (provider.descriptor.bind RCDescriptor.name).getD "Unknown Provider" } }
    provider_id := provider.id.getD ""
    location_id := product.location_id.getD ""
    fulfillment_id := product.fulfillment_id.getD ""
    subtotal := subtotalValue }

/-- The `raw_cart` wire event. -/
structure RawCartEvent where
  session_id : Option String := none
  cart_items : Option (List RawCartItem) := none
  cart_summary : Option RawCartSummary := none
  deriving Repr, DecidableEq

/-- The `normalizedCartSummary` computation at the top of `handleRawCart`:
when the summary has no items but `cart_items` is a non-empty array, a
summary is synthesized from it (the `try` body is total in this model, so
the `catch` path is unreachable). -/
def normalizeCartSummary (now : Nat) (ev : RawCartEvent) : Option RawCartSummary :=
  let hasSummaryItems :=
    match ev.cart_summary.bind RawCartSummary.items with
    | some items => items.length > 0
    | none => false
  if !hasSummaryItems then
    match ev.cart_items with
    | some cartItems =>
      if cartItems.length > 0 then
        let synthesizedItems := cartItems.map (synthesizeCartItem now)
        some
          { items := some synthesizedItems
            total_items := some ((ev.cart_summary.bind RawCartSummary.total_items).getD
              (synthesizedItems.foldl (fun acc it => acc + jsOrQv it.quantity 0) 0))
            total_value := some ((ev.cart_summary.bind RawCartSummary.total_value).getD
              (synthesizedItems.foldl (fun acc it => acc + jsOrQv it.subtotal 0) 0))
            is_empty := some false }
      else ev.cart_summary
    | none => ev.cart_summary
  else ev.cart_summary

/-! ## Parsed stream events -/

/-- The `response` wire event.  `content` is optional because the handler
accesses it with `?.`. -/
structure RespEvent where
  content : Option String := none
  session_id : Option String := none
  timestamp : Option String := none
  data : Option RespData := none
  context_type : Option ContextType := none
  deriving Repr, DecidableEq

/-- The `raw_products` wire event. -/
structure RawProductsEvent where
  session_id : Option String := none
  products : List RawProduct
  deriving Repr, DecidableEq

/-- A parsed stream event, discriminated by its `type` tag.  `other` stands
for any successfully parsed record whose tag matches none of the six
dispatched kinds; the dispatcher ignores it. -/
inductive StreamEvent where
  | thinking (message : String) (session_id : Option String)
  | conversation_chunk (message : String) (stage : Option String) (session_id : Option String)
  | tool_start (tool : String) (status : String) (session_id : Option String)
  | response (ev : RespEvent)
  | raw_products (ev : RawProductsEvent)
  | raw_cart (ev : RawCartEvent)
  | other
  deriving Repr, DecidableEq

/-! ## Transcript reconciliation handlers -/

/-- The shared `setChats(prev => prev.map(c => c.id !== activeChatId ? c :
{ ...c, messages: f(c.messages) }))` pattern. -/
def onActiveMessages (s : ChatState) (f : List ChatMessage → List ChatMessage) : ChatState :=
  { s with chats := s.chats.map fun c =>
      if c.id == s.activeChatId then { c with messages := f c.messages } else c }

/-- Model of `if (session_id) setSessionId(session_id)`: the empty string is falsy. -/
def updSession (session_id : Option String) (s : ChatState) : ChatState :=
  match session_id with
  | some v => if v == "" then s else { s with sessionId := some v }
  | none => s

def mkThinkingMsg (now : Nat) (message : String) (cur : Option String) : ChatMessage :=
  { id := "thinking" ++ toString now, type := .bot_thinking, content := some message,
    streamId := jsOrStr cur none }

/-- Translation of `handleThinking`. -/
def handleThinking (now : Nat) (message : String) (session_id : Option String)
    (s : ChatState) : ChatState :=
  let s := updSession session_id s
  let thinkingMsg := mkThinkingMsg now message s.currentStreamId
  onActiveMessages s fun msgs =>
    (msgs.filter fun m => !(m.type == .bot_thinking && streamEq m.streamId s.currentStreamId))
      ++ [thinkingMsg]

/-- Translation of `handleToolStart`. -/
def handleToolStart (now : Nat) (tool status : String) (session_id : Option String)
    (s : ChatState) : ChatState :=
  let s := updSession session_id s
  let toolMsg : ChatMessage :=
    { id := "tool" ++ toString now, type := .bot_tool_executing, tool := some tool,
      status := some status, streamId := jsOrStr s.currentStreamId none }
  onActiveMessages s fun msgs =>
    (msgs.filter fun m => !(m.type == .bot_tool_executing && streamEq m.streamId s.currentStreamId))
      ++ [toolMsg]

/-- Translation of `handleConversationChunk`. -/
def handleConversationChunk (now : Nat) (message : String) (stage session_id : Option String)
    (s : ChatState) : ChatState :=
  let s := updSession session_id s
  let chunkMsg : ChatMessage :=
    { id := "chunk" ++ toString now, type := .bot_conversation_chunk, content := some message,
      stage := stage, streamId := jsOrStr s.currentStreamId none }
  onActiveMessages s fun msgs =>
    (msgs.filter fun m => !(m.type == .bot_conversation_chunk && streamEq m.streamId s.currentStreamId))
      ++ [chunkMsg]

/-- Translation of `removeThinkingMessages`: drop `bot_thinking` and `bot_tool_executing`
entries of the current stream from the active chat. -/
def removeThinkingMessages (s : ChatState) : ChatState :=
  onActiveMessages s fun msgs =>
    msgs.filter fun m =>
      !((m.type == .bot_thinking || m.type == .bot_tool_executing)
        && streamEq m.streamId s.currentStreamId)

/-! ## The payment amount heuristic of `handleResponse` -/

def digitsVal (ds : List Char) : Nat :=
  ds.foldl (fun a c => a * 10 + (c.toNat - Char.toNat '0')) 0

/-- Value of `parseFloat` on a captured decimal numeral, as an exact
rational. -/
def fixedVal (ids fds : List Char) : ℚ :=
  (digitsVal ids : ℚ) + (digitsVal fds : ℚ) / (10 : ℚ) ^ fds.length

/-- Leftmost match of the pattern: a rupee sign followed by one or more
digits, an optional dot, and further digits.  Returns the integral and
fractional digit runs of the first match. -/
def rupeeScan : List Char → Option (List Char × List Char)
  | [] => none
  | c :: rest =>
    if c == '₹' then
      match rest with
      | d :: _ =>
        if d.isDigit then
          let ids := rest.takeWhile Char.isDigit
          match rest.dropWhile Char.isDigit with
          | '.' :: r2 => some (ids, r2.takeWhile Char.isDigit)
          | _ => some (ids, [])
        else rupeeScan rest
      | [] => none
    else rupeeScan rest

/-- Model of the rupee regular-expression match followed by `parseFloat`, defaulting to
`0` when no match exists. -/
def rupeeAmount (text : String) : ℚ :=
  match rupeeScan text.data with
  | some (ids, fds) => fixedVal ids fds
  | none => 0

/-! ## `createMessagesFromResponse` and `handleResponse` -/

/-- Translation of `createMessagesFromResponse`: expand a final response into transcript
entries according to its `context_type`. -/
def createMessagesFromResponse (now : Nat) (responseData : ChatApiResponse) :
    List ChatMessage :=
  let m1 : List ChatMessage :=
    match responseData.response with
    | some r =>
      if r == "" then []
      else [{ id := "b" ++ toString now, type := .bot, content := some r }]
    | none => []
  match responseData.data with
  | none => m1
  | some data =>
    let searchMsgs : List ChatMessage :=
      if responseData.context_type == some .search_results then
        match data.products with
        | some ps =>
          if ps.length > 0 then
            [{ id := "p" ++ toString now, type := .bot_product_list, products := some ps }]
          else []
        | none => []
      else []
    let cartMsgs : List ChatMessage :=
      if responseData.context_type == some .cart_view then
        match data.cart_context with
        | some cc => [{ id := "c" ++ toString now, type := .bot_cart_view, cartContext := some cc }]
        | none => []
      else []
    let checkoutMsgs : List ChatMessage :=
      if responseData.context_type == some .checkout_stage then
        match data.journey_context with
        | some jc =>
          [{ id := "ch" ++ toString now, type := .bot_checkout_stage,
             quoteData := some (data.quote_data.getD { providers := [] }),
             journeyContext := some jc }]
        | none => []
      else []
    let orderMsgs : List ChatMessage :=
      if responseData.context_type == some .order_confirmation then
        match data.simple_data.bind SimpleData.confirm_context with
        | some cc =>
          [{ id := "oc" ++ toString now, type := .bot_order_confirmation,
             orderData := some
               { order_id := cc.order_id, status := cc.order_status,
                 total_amount := cc.total_amount, currency := "INR",
                 customer_name := "Customer", delivery_address := "Address on file" } }]
        | none => []
      else []
    let errorMsgs : List ChatMessage :=
      if responseData.context_type == some .error_message || data.success == some false then
        [{ id := "e" ++ toString now, type := .bot_error,
           error := some
             { success := data.success.getD false, error_type := "api_error",
               message := jsOrS responseData.response "An error occurred",
               retry_possible := some true } }]
      else []
    let successMsgs : List ChatMessage :=
      if responseData.context_type == some .success_message then
        match data.journey_context.bind JourneyContext.next_operations with
        | some ops =>
          [{ id := "s" ++ toString now, type := .bot_success,
             message := jsOrS responseData.response "Operation completed successfully",
             nextOperations := some ops }]
        | none => []
      else []
    m1 ++ searchMsgs ++ cartMsgs ++ checkoutMsgs ++ orderMsgs ++ errorMsgs ++ successMsgs

/-- Translation of `handleResponse`.  Three branches: session-initialisation texts are
suppressed; payment-initialisation texts append a bot entry plus a
`bot_payment_initiated` entry; everything else goes through
`createMessagesFromResponse`. -/
def handleResponse (now : Nat) (nowIso : String) (ev : RespEvent) (s : ChatState) : ChatState :=
  let sessionAtEntry := s.sessionId
  let s := updSession ev.session_id s
  if includesO ev.content "initialized a new shopping session"
      || includesO ev.content "Session Ready" then
    removeThinkingMessages s
  else if includesO ev.content "Your order has been initialized" then
    let text := ev.content.getD ""
    let amount := rupeeAmount text
    let orderId := "order_" ++ toString now
    let paymentMessage : ChatMessage :=
      { id := "payment_" ++ toString now, type := .bot_payment_initiated,
        orderId := some orderId, amount := some amount, currency := some "INR" }
    onActiveMessages s fun msgs =>
      (msgs.filter fun m =>
          !((m.type == .bot_thinking || m.type == .bot_tool_executing)
            && streamEq m.streamId s.currentStreamId))
        ++ [{ id := "response_" ++ toString now, type := .bot, content := some text },
            paymentMessage]
  else
    let responseData : ChatApiResponse :=
      { response := ev.content
        session_id := jsOrS ev.session_id (jsOrS sessionAtEntry "")
        device_id := ""
        timestamp := jsOrS ev.timestamp nowIso
        data := ev.data
        context_type := ev.context_type }
    let s :=
      match ev.data.bind RespData.cart_context with
      | some cc =>
        { s with cartState :=
            { itemCount := jsOrQv cc.total_items 0, total := jsOrQv cc.total_value 0 } }
      | none => s
    let newMessages := createMessagesFromResponse now responseData
    onActiveMessages s fun msgs =>
      (msgs.filter fun m =>
          !((m.type == .bot_thinking || m.type == .bot_tool_executing
              || m.type == .bot_conversation_chunk)
            && streamEq m.streamId s.currentStreamId))
        ++ newMessages

/-- Translation of `handleRawProducts`. -/
def handleRawProducts (now : Nat) (ev : RawProductsEvent) (s : ChatState) : ChatState :=
  let s := updSession ev.session_id s
  if ev.products.length == 0 then
    removeThinkingMessages s
  else
    let transformedProducts := ev.products.map transformRawProduct
    let productMessage : ChatMessage :=
      { id := "raw_products" ++ toString now, type := .bot_product_list,
        products := some transformedProducts, streamId := jsOrStr s.currentStreamId none }
    onActiveMessages s fun msgs =>
      (msgs.filter fun m =>
          !((m.type == .bot_thinking || m.type == .bot_tool_executing
              || m.type == .bot_conversation_chunk)
            && streamEq m.streamId s.currentStreamId)
          && !(m.type == .bot_product_list && streamEq m.streamId s.currentStreamId))
        ++ [productMessage]

/-- Translation of `handleRawCart`. -/
def handleRawCart (now : Nat) (ev : RawCartEvent) (s : ChatState) : ChatState :=
  let s := updSession ev.session_id s
  let normalizedCartSummary := normalizeCartSummary now ev
  let hasItemsNow :=
    match normalizedCartSummary.bind RawCartSummary.items with
    | some items => items.length > 0
    | none => false
  if !hasItemsNow then
    removeThinkingMessages s
  else
    let cartContext := transformRawCartSummary (normalizedCartSummary.getD {})
    let s :=
      { s with cartState :=
          { itemCount := jsOrQv cartContext.total_items 0,
            total := jsOrQv cartContext.total_value 0 } }
    let cartMessage : ChatMessage :=
      { id := "raw_cart" ++ toString now, type := .bot_cart_view,
        cartContext := some cartContext, streamId := jsOrStr s.currentStreamId none }
    onActiveMessages s fun msgs =>
      (msgs.filter fun m =>
          !((m.type == .bot_thinking || m.type == .bot_tool_executing
              || m.type == .bot_conversation_chunk)
            && streamEq m.streamId s.currentStreamId)
          && !(m.type == .bot_cart_view && streamEq m.streamId s.currentStreamId))
        ++ [cartMessage]

def mkNetworkErrorMsg (now : Nat) : ChatMessage :=
  { id := "e" ++ toString now, type := .bot_error,
    error := some
      { success := false, error_type := "network_error",
        message := "Sorry, I encountered an error. Please try again.",
        retry_possible := some true, recovery_action := some "retry_operation" } }

/-- Translation of `handleStreamError`: sweep `thinking`/`tool` entries, then append a
durable network-error entry when the captured `chats` variable already has
content.  The handler closes over the `chats` value of the render at which
the stream was started — before the `setChats` of the same `sendMessage`
call re-rendered — so the append decision reads that render snapshot,
passed here as the explicit `chatsSnapshot` argument, not the live state. -/
def handleStreamError (now : Nat) (chatsSnapshot : List ChatSession) (s : ChatState) :
    ChatState :=
  let s := { s with isLoading := false }
  let s := removeThinkingMessages s
  let currentChat := chatsSnapshot.find? fun c => c.id == s.activeChatId
  let shouldAppendMessage :=
    match currentChat with
    | some c => decide (c.messages.length > 0)
    | none => false
  if shouldAppendMessage then
    onActiveMessages s fun msgs => msgs ++ [mkNetworkErrorMsg now]
  else s

/-- Translation of `handleStreamComplete`. -/
def handleStreamComplete (s : ChatState) : ChatState :=
  removeThinkingMessages { s with isLoading := false }

/-- The `data.type` if-chain of `useChatStream.sendMessage`: route a parsed
event to its handler; unknown kinds are ignored. -/
def dispatchEvent (now : Nat) (nowIso : String) (e : StreamEvent) (s : ChatState) : ChatState :=
  match e with
  | .thinking message session_id => handleThinking now message session_id s
  | .conversation_chunk message stage session_id =>
    handleConversationChunk now message stage session_id s
  | .tool_start tool status session_id => handleToolStart now tool status session_id s
  | .response ev => handleResponse now nowIso ev s
  | .raw_products ev => handleRawProducts now ev s
  | .raw_cart ev => handleRawCart now ev s
  | .other => s

/-! ## The stream read loop of `useChatStream.sendMessage` -/

/-- A run: the controller state plus counters observing how often the
`onComplete` and `onError` callbacks have fired. -/
structure RunState where
  chat : ChatState
  completions : Nat
  errors : Nat
  deriving Repr, DecidableEq

def stepEvent (now : Nat) (nowIso : String) (e : StreamEvent) (r : RunState) : RunState :=
  { r with chat := dispatchEvent now nowIso e r.chat }

/-- The `onComplete` invocation: fires `handleStreamComplete` and bumps the
completion counter. -/
def completeStep (r : RunState) : RunState :=
  { r with chat := handleStreamComplete r.chat, completions := r.completions + 1 }

/-- The `onError` invocation: fires `handleStreamError` (with the render
snapshot its closure captured) and bumps the error counter. -/
def errorStep (now : Nat) (chatsSnapshot : List ChatSession) (r : RunState) : RunState :=
  { r with chat := handleStreamError now chatsSnapshot r.chat, errors := r.errors + 1 }

/-- The read loop of `useChatStream.sendMessage`, at the granularity of
complete decoded lines: trim, skip blank and comment lines, terminate on
the sentinel, strip the `data:` field marker, parse, dispatch on success,
skip on parse failure.  An exhausted list is the transport reporting
natural completion (`done`), which also invokes `onComplete`. -/
def processLines (parse : String → Option StreamEvent) (now : Nat) (nowIso : String) :
    RunState → List String → RunState
  | r, [] => completeStep r
  | r, line :: rest =>
    let t := jsTrim line
    if t == "" || jsStarts ":" t then processLines parse now nowIso r rest
    else if t == "[DONE]" || t == "data: [DONE]" then completeStep r
    else if jsStarts "data:" t then
      match parse (jsTrim (jsDrop 5 t)) with
      | some e => processLines parse now nowIso (stepEvent now nowIso e r) rest
      | none => processLines parse now nowIso r rest
    else processLines parse now nowIso r rest

/-- The same loop cut off mid-stream: the request has consumed the given
lines and is suspended awaiting the next read when it is aborted.  A
sentinel among the lines still completes the stream (and stops reading);
running out of lines just leaves the request suspended. -/
def consumeLines (parse : String → Option StreamEvent) (now : Nat) (nowIso : String) :
    RunState → List String → RunState
  | r, [] => r
  | r, line :: rest =>
    let t := jsTrim line
    if t == "" || jsStarts ":" t then consumeLines parse now nowIso r rest
    else if t == "[DONE]" || t == "data: [DONE]" then completeStep r
    else if jsStarts "data:" t then
      match parse (jsTrim (jsDrop 5 t)) with
      | some e => consumeLines parse now nowIso (stepEvent now nowIso e r) rest
      | none => consumeLines parse now nowIso r rest
    else consumeLines parse now nowIso r rest

def mkUserMsg (now : Nat) (msg : String) : ChatMessage :=
  { id := "m" ++ toString now, type := .user, content := some msg }

/-- The synchronous prelude of the screen controller `sendMessage`: pick a
fresh stream identity, optionally append the user entry, set the loading
flag. -/
def sendPrelude (now : Nat) (streamId msg : String) (appendMessage : Bool)
    (s : ChatState) : ChatState :=
  let s := { s with currentStreamId := some streamId }
  let s :=
    if appendMessage then onActiveMessages s (fun msgs => msgs ++ [mkUserMsg now msg])
    else s
  { s with isLoading := true }

/-- Transport outcome of one `fetch`: either a failure before any frame is
read (network error or non-success HTTP status), or a stream of lines
followed by natural completion. -/
inductive Transport where
  | fail
  | ok (lines : List String)
  deriving Repr, DecidableEq

/-- One full, uninterrupted `sendMessage` call: the handlers close over the
render snapshot of `chats` (taken before the prelude appends the user
entry), then the controller prelude runs, then the hook either fails
before any frame (invoking `onError` exactly once, with that snapshot) or
processes the stream — `isStreamingRef` is `true` at the loop entry and
nothing clears it mid-stream. -/
def sendMessageRun (parse : String → Option StreamEvent) (now : Nat) (nowIso : String)
    (streamId msg : String) (appendMessage : Bool) (tr : Transport) (r : RunState) : RunState :=
  let snapshot := r.chat.chats
  let r := { r with chat := sendPrelude now streamId msg appendMessage r.chat }
  match tr with
  | .fail => errorStep now snapshot r
  | .ok lines => processLines parse now nowIso r lines

/-- A line whose trimmed text is the sentinel in either accepted form. -/
def isTerminalLine (line : String) : Bool :=
  jsTrim line == "[DONE]" || jsTrim line == "data: [DONE]"

/-- The `while (isStreamingRef.current)` loop of the hook with the shared
flag made explicit: when the flag has already been cleared before the
first iteration, the loop body never runs, so no frame is read and neither
`onComplete` nor `onError` fires. -/
def readLoopIfStreaming (isStreaming : Bool) (parse : String → Option StreamEvent)
    (now : Nat) (nowIso : String) (r : RunState) (lines : List String) : RunState :=
  if isStreaming then processLines parse now nowIso r lines else r

/-- Two overlapping requests: request one starts and consumes some lines;
while it is suspended, a second `sendMessage` aborts it (the abort rejects
the pending read with `AbortError`, whose catch path returns without
invoking any callback or touching the transcript) and opens request two.
The two calls share `isStreamingRef`: the second call sets it before
awaiting its fetch, and the aborted first call's `finally` then clears it
— the `AbortError` microtask runs before the network response arrives —
so when the first request was still open (no sentinel among its consumed
lines) the second request's read loop finds the flag already cleared and
never iterates.  Only when the first stream had already completed (its
`finally` ran before the second call began) does the second loop run. -/
def cancelScenario (parse : String → Option StreamEvent) (now : Nat) (nowIso : String)
    (id1 msg1 : String) (fr1 : List String) (id2 msg2 : String) (tr2 : Transport)
    (r : RunState) : RunState :=
  let r := { r with chat := sendPrelude now id1 msg1 true r.chat }
  let r := consumeLines parse now nowIso r fr1
  let snapshot := r.chat.chats
  let r := { r with chat := sendPrelude now id2 msg2 true r.chat }
  match tr2 with
  | .fail => errorStep now snapshot r
  | .ok lines => readLoopIfStreaming (fr1.any isTerminalLine) parse now nowIso r lines

/-! ## Frame-level characterisations used by the theorems -/

/-- The lines the loop actually processes: everything before the first
sentinel line. -/
def framesUntilDone (ls : List String) : List String :=
  ls.takeWhile fun l => !isTerminalLine l

/-- The effect of one non-sentinel line on a run. -/
def frameStep (parse : String → Option StreamEvent) (now : Nat) (nowIso : String)
    (r : RunState) (line : String) : RunState :=
  let t := jsTrim line
  if t == "" || jsStarts ":" t then r
  else if jsStarts "data:" t then
    match parse (jsTrim (jsDrop 5 t)) with
    | some e => stepEvent now nowIso e r
    | none => r
  else r

/-- The payload view prescribed by the specification for sentinel
detection.  Modelled from the spec: the payload of a line is its text after
stripping the optional `data:` field marker and any single following
space. -/
def specSentinelPayload (t : String) : String :=
  if jsStarts "data:" t then
    let r := jsDrop 5 t
    if jsStarts " " r then jsDrop 1 r else r
  else t

/-! ## Projection lemmas for the handlers -/

@[simp] lemma updSession_chats (sid : Option String) (s : ChatState) :
    (updSession sid s).chats = s.chats := by
  cases sid <;> simp [updSession] <;> split <;> rfl

@[simp] lemma updSession_activeChatId (sid : Option String) (s : ChatState) :
    (updSession sid s).activeChatId = s.activeChatId := by
  cases sid <;> simp [updSession] <;> split <;> rfl

@[simp] lemma updSession_currentStreamId (sid : Option String) (s : ChatState) :
    (updSession sid s).currentStreamId = s.currentStreamId := by
  cases sid <;> simp [updSession] <;> split <;> rfl

@[simp] lemma onActiveMessages_activeChatId (s : ChatState)
    (f : List ChatMessage → List ChatMessage) :
    (onActiveMessages s f).activeChatId = s.activeChatId := rfl

@[simp] lemma onActiveMessages_currentStreamId (s : ChatState)
    (f : List ChatMessage → List ChatMessage) :
    (onActiveMessages s f).currentStreamId = s.currentStreamId := rfl

@[simp] lemma removeThinkingMessages_activeChatId (s : ChatState) :
    (removeThinkingMessages s).activeChatId = s.activeChatId := rfl

@[simp] lemma removeThinkingMessages_currentStreamId (s : ChatState) :
    (removeThinkingMessages s).currentStreamId = s.currentStreamId := rfl

lemma onActiveMessages_chats_getElem (s : ChatState)
    (f : List ChatMessage → List ChatMessage) (i : Nat) :
    (onActiveMessages s f).chats[i]? =
      (s.chats[i]?).map fun c =>
        if c.id == s.activeChatId then { c with messages := f c.messages } else c := by
  simp [onActiveMessages, List.getElem?_map]

lemma dispatchEvent_activeChatId (now : Nat) (nowIso : String) (e : StreamEvent)
    (s : ChatState) : (dispatchEvent now nowIso e s).activeChatId = s.activeChatId := by
  cases e <;>
    simp only [dispatchEvent, handleThinking, handleToolStart, handleConversationChunk,
      handleResponse, handleRawProducts, handleRawCart] <;>
    (repeat' split) <;>
    simp [removeThinkingMessages]

lemma dispatchEvent_currentStreamId (now : Nat) (nowIso : String) (e : StreamEvent)
    (s : ChatState) : (dispatchEvent now nowIso e s).currentStreamId = s.currentStreamId := by
  cases e <;>
    simp only [dispatchEvent, handleThinking, handleToolStart, handleConversationChunk,
      handleResponse, handleRawProducts, handleRawCart] <;>
    (repeat' split) <;>
    simp [removeThinkingMessages]

lemma handleStreamComplete_activeChatId (s : ChatState) :
    (handleStreamComplete s).activeChatId = s.activeChatId := rfl

lemma handleStreamComplete_currentStreamId (s : ChatState) :
    (handleStreamComplete s).currentStreamId = s.currentStreamId := rfl

lemma handleStreamError_activeChatId (now : Nat) (snap : List ChatSession) (s : ChatState) :
    (handleStreamError now snap s).activeChatId = s.activeChatId := by
  simp only [handleStreamError]
  split <;> rfl

lemma handleStreamError_currentStreamId (now : Nat) (snap : List ChatSession)
    (s : ChatState) :
    (handleStreamError now snap s).currentStreamId = s.currentStreamId := by
  simp only [handleStreamError]
  split <;> rfl

/-! ## Message preservation machinery -/

/-- A message `m` present in the chat at position `i` is still present in
the chat at position `i` after a state step. -/
def msgKept (s s' : ChatState) (m : ChatMessage) : Prop :=
  ∀ (i : Nat) (c : ChatSession), s.chats[i]? = some c → m ∈ c.messages →
    ∃ c', s'.chats[i]? = some c' ∧ m ∈ c'.messages

lemma msgKept_of_chatsEq {s s' : ChatState} (m : ChatMessage) (h : s'.chats = s.chats) :
    msgKept s s' m := by
  intro i c hc hm
  exact ⟨c, by rw [h]; exact hc, hm⟩

lemma msgKept_refl (s : ChatState) (m : ChatMessage) : msgKept s s m :=
  msgKept_of_chatsEq m rfl

lemma msgKept_trans {s₁ s₂ s₃ : ChatState} {m : ChatMessage}
    (h₁ : msgKept s₁ s₂ m) (h₂ : msgKept s₂ s₃ m) : msgKept s₁ s₃ m := by
  intro i c hc hm
  obtain ⟨c', hc', hm'⟩ := h₁ i c hc hm
  exact h₂ i c' hc' hm'

lemma msgKept_onActive (s : ChatState) (f : List ChatMessage → List ChatMessage)
    (m : ChatMessage) (hf : ∀ msgs, m ∈ msgs → m ∈ f msgs) :
    msgKept s (onActiveMessages s f) m := by
  intro i c hc hm
  rw [onActiveMessages_chats_getElem, hc]
  by_cases hid : (c.id == s.activeChatId) = true
  · refine ⟨{ c with messages := f c.messages }, ?_, hf c.messages hm⟩
    simp [eq_of_beq hid]
  · refine ⟨c, ?_, hm⟩
    simp only [beq_iff_eq] at hid
    simp [hid]

lemma mem_filter_append {p : ChatMessage → Bool} {l app : List ChatMessage}
    {m : ChatMessage} (hm : m ∈ l) (hp : p m = true) : m ∈ l.filter p ++ app :=
  List.mem_append_left _ (List.mem_filter.mpr ⟨hm, hp⟩)

lemma removeThinkingMessages_msgKept (s : ChatState) (m : ChatMessage)
    (h : streamEq m.streamId s.currentStreamId = false) :
    msgKept s (removeThinkingMessages s) m := by
  simp only [removeThinkingMessages]
  refine msgKept_onActive _ _ _ ?_
  intro msgs hm
  exact List.mem_filter.mpr ⟨hm, by simp [h]⟩

set_option maxHeartbeats 1000000 in
/-- Every dispatched event keeps every transcript entry that is not owned
by the current stream identity. -/
lemma dispatchEvent_msgKept (now : Nat) (nowIso : String) (e : StreamEvent) (s : ChatState)
    (m : ChatMessage) (h : streamEq m.streamId s.currentStreamId = false) :
    msgKept s (dispatchEvent now nowIso e s) m := by
  have hupd : ∀ sid, msgKept s (updSession sid s) m := fun sid =>
    msgKept_of_chatsEq m (updSession_chats sid s)
  cases e with
  | thinking message session_id =>
    simp only [dispatchEvent, handleThinking]
    exact msgKept_trans (hupd _)
      (msgKept_onActive _ _ _ fun msgs hm => mem_filter_append hm (by simp [h]))
  | conversation_chunk message stage session_id =>
    simp only [dispatchEvent, handleConversationChunk]
    exact msgKept_trans (hupd _)
      (msgKept_onActive _ _ _ fun msgs hm => mem_filter_append hm (by simp [h]))
  | tool_start tool status session_id =>
    simp only [dispatchEvent, handleToolStart]
    exact msgKept_trans (hupd _)
      (msgKept_onActive _ _ _ fun msgs hm => mem_filter_append hm (by simp [h]))
  | response ev =>
    simp only [dispatchEvent, handleResponse]
    split
    · exact msgKept_trans (hupd _) (removeThinkingMessages_msgKept _ _ (by simp [h]))
    · split
      · exact msgKept_trans (hupd _)
          (msgKept_onActive _ _ _ fun msgs hm => mem_filter_append hm (by simp [h]))
      · split
        · refine msgKept_trans ?_
            (msgKept_onActive _ _ _ fun msgs hm => mem_filter_append hm (by simp [h]))
          exact msgKept_of_chatsEq m (by simp)
        · exact msgKept_trans (hupd _)
            (msgKept_onActive _ _ _ fun msgs hm => mem_filter_append hm (by simp [h]))
  | raw_products ev =>
    simp only [dispatchEvent, handleRawProducts]
    split
    · exact msgKept_trans (hupd _) (removeThinkingMessages_msgKept _ _ (by simp [h]))
    · exact msgKept_trans (hupd _)
        (msgKept_onActive _ _ _ fun msgs hm => mem_filter_append hm (by simp [h]))
  | raw_cart ev =>
    simp only [dispatchEvent, handleRawCart]
    split
    · exact msgKept_trans (hupd _) (removeThinkingMessages_msgKept _ _ (by simp [h]))
    · refine msgKept_trans ?_
        (msgKept_onActive _ _ _ fun msgs hm => mem_filter_append hm (by simp [h]))
      exact msgKept_of_chatsEq m (by simp)
  | other => exact msgKept_refl s m

lemma handleStreamComplete_msgKept (s : ChatState) (m : ChatMessage)
    (h : streamEq m.streamId s.currentStreamId = false) :
    msgKept s (handleStreamComplete s) m := by
  simp only [handleStreamComplete]
  exact msgKept_trans (msgKept_of_chatsEq m rfl)
    (removeThinkingMessages_msgKept _ _ (by simp [h]))

lemma handleStreamError_msgKept (now : Nat) (snap : List ChatSession) (s : ChatState)
    (m : ChatMessage) (h : streamEq m.streamId s.currentStreamId = false) :
    msgKept s (handleStreamError now snap s) m := by
  simp only [handleStreamError]
  split
  · refine msgKept_trans ?_ (msgKept_onActive _ _ _ fun msgs hm => List.mem_append_left _ hm)
    exact msgKept_trans (msgKept_of_chatsEq m rfl)
      (removeThinkingMessages_msgKept _ _ (by simp [h]))
  · exact msgKept_trans (msgKept_of_chatsEq m rfl)
      (removeThinkingMessages_msgKept _ _ (by simp [h]))

lemma sendPrelude_msgKept (now : Nat) (streamId msg : String) (appendMessage : Bool)
    (s : ChatState) (m : ChatMessage) :
    msgKept s (sendPrelude now streamId msg appendMessage s) m := by
  simp only [sendPrelude]
  split
  · refine msgKept_trans ?_ (msgKept_of_chatsEq m rfl)
    refine msgKept_trans (msgKept_of_chatsEq m rfl)
      (msgKept_onActive _ _ _ fun msgs hm => List.mem_append_left _ hm)
  · exact msgKept_of_chatsEq m rfl

/-! ## Counter and loop lemmas -/

@[simp] lemma stepEvent_completions (now : Nat) (nowIso : String) (e : StreamEvent)
    (r : RunState) : (stepEvent now nowIso e r).completions = r.completions := rfl

@[simp] lemma stepEvent_errors (now : Nat) (nowIso : String) (e : StreamEvent)
    (r : RunState) : (stepEvent now nowIso e r).errors = r.errors := rfl

@[simp] lemma completeStep_completions (r : RunState) :
    (completeStep r).completions = r.completions + 1 := rfl

@[simp] lemma completeStep_errors (r : RunState) : (completeStep r).errors = r.errors := rfl

@[simp] lemma errorStep_completions (now : Nat) (snap : List ChatSession) (r : RunState) :
    (errorStep now snap r).completions = r.completions := rfl

@[simp] lemma errorStep_errors (now : Nat) (snap : List ChatSession) (r : RunState) :
    (errorStep now snap r).errors = r.errors + 1 := rfl

lemma frameStep_completions (parse : String → Option StreamEvent) (now : Nat)
    (nowIso : String) (r : RunState) (line : String) :
    (frameStep parse now nowIso r line).completions = r.completions := by
  simp only [frameStep]
  (repeat' split) <;> rfl

lemma frameStep_errors (parse : String → Option StreamEvent) (now : Nat)
    (nowIso : String) (r : RunState) (line : String) :
    (frameStep parse now nowIso r line).errors = r.errors := by
  simp only [frameStep]
  (repeat' split) <;> rfl

lemma foldl_frameStep_completions (parse : String → Option StreamEvent) (now : Nat)
    (nowIso : String) : ∀ (ls : List String) (r : RunState),
    (List.foldl (frameStep parse now nowIso) r ls).completions = r.completions := by
  intro ls
  induction ls with
  | nil => intro r; rfl
  | cons line rest ih =>
    intro r
    rw [List.foldl_cons, ih, frameStep_completions]

lemma foldl_frameStep_errors (parse : String → Option StreamEvent) (now : Nat)
    (nowIso : String) : ∀ (ls : List String) (r : RunState),
    (List.foldl (frameStep parse now nowIso) r ls).errors = r.errors := by
  intro ls
  induction ls with
  | nil => intro r; rfl
  | cons line rest ih =>
    intro r
    rw [List.foldl_cons, ih, frameStep_errors]

/-! ## One-step unfolding lemmas for the read loop -/

lemma processLines_cons_skip (parse : String → Option StreamEvent) (now : Nat)
    (nowIso : String) (r : RunState) (line : String) (rest : List String)
    (h : (jsTrim line == "" || jsStarts ":" (jsTrim line)) = true) :
    processLines parse now nowIso r (line :: rest) = processLines parse now nowIso r rest := by
  simp only [processLines]
  rw [if_pos h]

lemma processLines_cons_done (parse : String → Option StreamEvent) (now : Nat)
    (nowIso : String) (r : RunState) (line : String) (rest : List String)
    (h1 : (jsTrim line == "" || jsStarts ":" (jsTrim line)) = false)
    (h2 : (jsTrim line == "[DONE]" || jsTrim line == "data: [DONE]") = true) :
    processLines parse now nowIso r (line :: rest) = completeStep r := by
  simp only [processLines]
  rw [if_neg (by simp [h1]), if_pos h2]

lemma processLines_cons_data (parse : String → Option StreamEvent) (now : Nat)
    (nowIso : String) (r : RunState) (line : String) (rest : List String)
    (h1 : (jsTrim line == "" || jsStarts ":" (jsTrim line)) = false)
    (h2 : (jsTrim line == "[DONE]" || jsTrim line == "data: [DONE]") = false)
    (h3 : jsStarts "data:" (jsTrim line) = true) :
    processLines parse now nowIso r (line :: rest) =
      (match parse (jsTrim (jsDrop 5 (jsTrim line))) with
        | some e => processLines parse now nowIso (stepEvent now nowIso e r) rest
        | none => processLines parse now nowIso r rest) := by
  simp only [processLines]
  rw [if_neg (by simp [h1]), if_neg (by simp [h2]), if_pos h3]

lemma processLines_cons_nondata (parse : String → Option StreamEvent) (now : Nat)
    (nowIso : String) (r : RunState) (line : String) (rest : List String)
    (h1 : (jsTrim line == "" || jsStarts ":" (jsTrim line)) = false)
    (h2 : (jsTrim line == "[DONE]" || jsTrim line == "data: [DONE]") = false)
    (h3 : jsStarts "data:" (jsTrim line) = false) :
    processLines parse now nowIso r (line :: rest) = processLines parse now nowIso r rest := by
  simp only [processLines]
  rw [if_neg (by simp [h1]), if_neg (by simp [h2]), if_neg (by simp [h3])]

/-- A sentinel line is never blank or a comment. -/
lemma terminal_not_comment (line : String) (h : isTerminalLine line = true) :
    (jsTrim line == "" || jsStarts ":" (jsTrim line)) = false := by
  have h' : jsTrim line = "[DONE]" ∨ jsTrim line = "data: [DONE]" := by
    simpa [isTerminalLine] using h
  rcases h' with h' | h' <;> rw [h'] <;> decide

/-- The read loop processes exactly the frames before the first sentinel
and then performs the single completion step. -/
lemma processLines_eq (parse : String → Option StreamEvent) (now : Nat) (nowIso : String) :
    ∀ (ls : List String) (r : RunState),
    processLines parse now nowIso r ls =
      completeStep (List.foldl (frameStep parse now nowIso) r (framesUntilDone ls)) := by
  intro ls
  induction ls with
  | nil => intro r; rfl
  | cons line rest ih =>
    intro r
    by_cases hterm : isTerminalLine line = true
    · rw [processLines_cons_done parse now nowIso r line rest (terminal_not_comment line hterm)
        hterm]
      simp [framesUntilDone, hterm]
    · have hterm' : isTerminalLine line = false := Bool.eq_false_iff.mpr hterm
      have h2 : (jsTrim line == "[DONE]" || jsTrim line == "data: [DONE]") = false := hterm'
      have hframes : framesUntilDone (line :: rest) = line :: framesUntilDone rest := by
        simp [framesUntilDone, hterm']
      by_cases h1 : (jsTrim line == "" || jsStarts ":" (jsTrim line)) = true
      · have hstep : frameStep parse now nowIso r line = r := by
          simp only [frameStep]
          rw [if_pos h1]
        rw [processLines_cons_skip parse now nowIso r line rest h1, hframes,
          List.foldl_cons, hstep, ih]
      · have h1' : (jsTrim line == "" || jsStarts ":" (jsTrim line)) = false :=
          Bool.eq_false_iff.mpr h1
        by_cases h3 : jsStarts "data:" (jsTrim line) = true
        · have hstep : frameStep parse now nowIso r line =
              (match parse (jsTrim (jsDrop 5 (jsTrim line))) with
                | some e => stepEvent now nowIso e r
                | none => r) := by
            simp only [frameStep]
            rw [if_neg (by simp [h1']), if_pos h3]
          rw [processLines_cons_data parse now nowIso r line rest h1' h2 h3, hframes,
            List.foldl_cons, hstep]
          cases parse (jsTrim (jsDrop 5 (jsTrim line))) with
          | some e => exact ih _
          | none => exact ih _
        · have h3' : jsStarts "data:" (jsTrim line) = false := Bool.eq_false_iff.mpr h3
          have hstep : frameStep parse now nowIso r line = r := by
            simp only [frameStep]
            rw [if_neg (by simp [h1']), if_neg (by simp [h3'])]
          rw [processLines_cons_nondata parse now nowIso r line rest h1' h2 h3', hframes,
            List.foldl_cons, hstep, ih]

lemma frameStep_chat_currentStreamId (parse : String → Option StreamEvent) (now : Nat)
    (nowIso : String) (r : RunState) (line : String) :
    (frameStep parse now nowIso r line).chat.currentStreamId = r.chat.currentStreamId := by
  simp only [frameStep]
  (repeat' split) <;> simp [stepEvent, dispatchEvent_currentStreamId]

lemma frameStep_msgKept (parse : String → Option StreamEvent) (now : Nat) (nowIso : String)
    (r : RunState) (line : String) (m : ChatMessage)
    (h : streamEq m.streamId r.chat.currentStreamId = false) :
    msgKept r.chat (frameStep parse now nowIso r line).chat m := by
  simp only [frameStep]
  (repeat' split) <;>
    first
      | exact msgKept_refl _ _
      | exact dispatchEvent_msgKept now nowIso _ r.chat m h

lemma foldl_frameStep_currentStreamId (parse : String → Option StreamEvent) (now : Nat)
    (nowIso : String) : ∀ (ls : List String) (r : RunState),
    (List.foldl (frameStep parse now nowIso) r ls).chat.currentStreamId =
      r.chat.currentStreamId := by
  intro ls
  induction ls with
  | nil => intro r; rfl
  | cons line rest ih =>
    intro r
    rw [List.foldl_cons, ih, frameStep_chat_currentStreamId]

lemma foldl_frameStep_msgKept (parse : String → Option StreamEvent) (now : Nat)
    (nowIso : String) : ∀ (ls : List String) (r : RunState) (m : ChatMessage),
    streamEq m.streamId r.chat.currentStreamId = false →
    msgKept r.chat (List.foldl (frameStep parse now nowIso) r ls).chat m := by
  intro ls
  induction ls with
  | nil => intro r m _; exact msgKept_refl _ _
  | cons line rest ih =>
    intro r m h
    rw [List.foldl_cons]
    refine msgKept_trans (frameStep_msgKept parse now nowIso r line m h) (ih _ m ?_)
    rw [frameStep_chat_currentStreamId]
    exact h

/-- The full read loop keeps every entry not owned by the current stream
identity. -/
lemma processLines_msgKept (parse : String → Option StreamEvent) (now : Nat) (nowIso : String)
    (ls : List String) (r : RunState) (m : ChatMessage)
    (h : streamEq m.streamId r.chat.currentStreamId = false) :
    msgKept r.chat (processLines parse now nowIso r ls).chat m := by
  rw [processLines_eq]
  refine msgKept_trans (foldl_frameStep_msgKept parse now nowIso (framesUntilDone ls) r m h)
    (handleStreamComplete_msgKept _ _ ?_)
  rw [foldl_frameStep_currentStreamId]
  exact h

lemma processLines_completions (parse : String → Option StreamEvent) (now : Nat)
    (nowIso : String) (ls : List String) (r : RunState) :
    (processLines parse now nowIso r ls).completions = r.completions + 1 := by
  rw [processLines_eq]
  simp [foldl_frameStep_completions]

lemma processLines_errors (parse : String → Option StreamEvent) (now : Nat)
    (nowIso : String) (ls : List String) (r : RunState) :
    (processLines parse now nowIso r ls).errors = r.errors := by
  rw [processLines_eq]
  simp [foldl_frameStep_errors]

/-- A stream aborted before any sentinel has fired neither callback. -/
lemma consumeLines_counters (parse : String → Option StreamEvent) (now : Nat)
    (nowIso : String) : ∀ (ls : List String) (r : RunState),
    (∀ l ∈ ls, isTerminalLine l = false) →
    (consumeLines parse now nowIso r ls).completions = r.completions ∧
      (consumeLines parse now nowIso r ls).errors = r.errors := by
  intro ls
  induction ls with
  | nil => intro r _; exact ⟨rfl, rfl⟩
  | cons line rest ih =>
    intro r hterm
    have hline : isTerminalLine line = false := hterm line (List.mem_cons_self _ _)
    have hrest : ∀ l ∈ rest, isTerminalLine l = false := fun l hl =>
      hterm l (List.mem_cons_of_mem _ hl)
    simp only [consumeLines]
    (repeat' split) <;>
      first
        | exact ih _ hrest
        | (exfalso; simp_all [isTerminalLine])

/-! ## Inactive chats are never touched -/

lemma onActive_inactive (s : ChatState) (f : List ChatMessage → List ChatMessage)
    (i : Nat) (c : ChatSession) (hc : s.chats[i]? = some c)
    (hid : (c.id == s.activeChatId) = false) :
    (onActiveMessages s f).chats[i]? = some c := by
  rw [onActiveMessages_chats_getElem, hc]
  rw [beq_eq_false_iff_ne] at hid
  simp [hid]

lemma onActive_inactive' {s₀ s : ChatState} (f : List ChatMessage → List ChatMessage)
    (hch : s₀.chats = s.chats) (hact : s₀.activeChatId = s.activeChatId)
    (i : Nat) (c : ChatSession) (hc : s.chats[i]? = some c)
    (hid : (c.id == s.activeChatId) = false) :
    (onActiveMessages s₀ f).chats[i]? = some c :=
  onActive_inactive s₀ f i c (by rw [hch]; exact hc) (by rw [hact]; exact hid)

set_option maxHeartbeats 1000000 in
/-- Every dispatched event leaves each chat session other than the active
one untouched. -/
lemma dispatchEvent_inactive (now : Nat) (nowIso : String) (e : StreamEvent) (s : ChatState)
    (i : Nat) (c : ChatSession) (hc : s.chats[i]? = some c)
    (hid : (c.id == s.activeChatId) = false) :
    (dispatchEvent now nowIso e s).chats[i]? = some c := by
  cases e <;>
    simp only [dispatchEvent, handleThinking, handleToolStart, handleConversationChunk,
      handleResponse, handleRawProducts, handleRawCart, removeThinkingMessages] <;>
    (repeat' split) <;>
      first
        | exact hc
        | exact onActive_inactive' _ (by simp) (by simp) i c hc hid

lemma removeThinkingMessages_inactive (s : ChatState) (i : Nat) (c : ChatSession)
    (hc : s.chats[i]? = some c) (hid : (c.id == s.activeChatId) = false) :
    (removeThinkingMessages s).chats[i]? = some c := by
  simp only [removeThinkingMessages]
  exact onActive_inactive' _ (by simp) (by simp) i c hc hid

lemma handleStreamComplete_inactive (s : ChatState) (i : Nat) (c : ChatSession)
    (hc : s.chats[i]? = some c) (hid : (c.id == s.activeChatId) = false) :
    (handleStreamComplete s).chats[i]? = some c := by
  simp only [handleStreamComplete, removeThinkingMessages]
  exact onActive_inactive' _ (by simp) (by simp) i c hc hid

lemma handleStreamError_inactive (now : Nat) (snap : List ChatSession) (s : ChatState)
    (i : Nat) (c : ChatSession)
    (hc : s.chats[i]? = some c) (hid : (c.id == s.activeChatId) = false) :
    (handleStreamError now snap s).chats[i]? = some c := by
  have h₁ : (removeThinkingMessages { s with isLoading := false }).chats[i]? = some c := by
    simp only [removeThinkingMessages]
    exact onActive_inactive' _ (by simp) (by simp) i c hc hid
  simp only [handleStreamError]
  split
  · exact onActive_inactive _ _ i c h₁ (by simpa using hid)
  · exact h₁

/-- A `data:`-prefixed payload line is neither blank nor a comment. -/
lemma data_not_comment (t : String) (h : jsStarts "data:" t = true) :
    (t == "" || jsStarts ":" t) = false := by
  unfold jsStarts at h ⊢
  have hd : "data:".data = ['d', 'a', 't', 'a', ':'] := rfl
  rw [hd] at h
  cases ht : t.data with
  | nil =>
    rw [ht] at h
    exact absurd h (by simp [listStarts])
  | cons b bs =>
    rw [ht] at h
    simp only [listStarts, Bool.and_eq_true] at h
    obtain ⟨hb, -⟩ := h
    have hb' : b = 'd' := (eq_of_beq hb).symm
    subst hb'
    have h1 : (t == "") = false := by
      rw [beq_eq_false_iff_ne]
      intro he
      rw [he] at ht
      simp at ht
    have h2 : ":".data = [':'] := rfl
    rw [h1, h2]
    simp [listStarts]

/-! ## Shared concrete fixtures for witnesses and counterexamples -/

def witChat : ChatSession := { id := "c1", title := "New Chat", messages := [] }

def witState : ChatState :=
  { chats := [witChat], activeChatId := "c1", sessionId := none,
    currentStreamId := some "s1", cartState := { itemCount := 0, total := 0 },
    isLoading := false }

def witRun : RunState := { chat := witState, completions := 0, errors := 0 }

/-! ## Claims -/

/-- C1: for every sequence of frames — whether it reaches the sentinel
payload, ends after a `Done`-kind event, or simply ends — the read loop
equals processing the frames before the first sentinel followed by the
single completion step, so `onComplete` fires exactly once and no
transcript mutation happens after it (the completion step is outermost). -/
theorem stream_completion_fires_exactly_once (parse : String → Option StreamEvent)
    (now : Nat) (nowIso : String) (r : RunState) (ls : List String) :
    processLines parse now nowIso r ls =
      completeStep (List.foldl (frameStep parse now nowIso) r (framesUntilDone ls)) ∧
    (processLines parse now nowIso r ls).completions = r.completions + 1 :=
  ⟨processLines_eq parse now nowIso ls r, processLines_completions parse now nowIso ls r⟩

/-- C6: a data frame whose payload fails to parse is skipped: the run over
the stream starting with the malformed frame equals the run over the rest
of the stream — no transcript mutation, no `onError`, processing
continues.  In particular a malformed record between two `thinking` frames
does not stop the second one from replacing the first. -/
theorem malformed_frame_skipped (parse : String → Option StreamEvent) (now : Nat)
    (nowIso : String) (r : RunState) (line : String) (rest : List String)
    (hdata : jsStarts "data:" (jsTrim line) = true)
    (hnotdone : isTerminalLine line = false)
    (hparse : parse (jsTrim (jsDrop 5 (jsTrim line))) = none) :
    processLines parse now nowIso r (line :: rest) = processLines parse now nowIso r rest := by
  rw [processLines_cons_data parse now nowIso r line rest
    (data_not_comment (jsTrim line) hdata) hnotdone hdata, hparse]

/-- C6 witness: the record `data: not-json` is skipped under a parser that
rejects it. -/
theorem malformed_frame_skipped_witness :
    processLines (fun _ => none) 0 "" witRun ["data: not-json"] =
      processLines (fun _ => none) 0 "" witRun [] :=
  malformed_frame_skipped (fun _ => none) 0 "" witRun "data: not-json" []
    (by decide) (by decide) rfl

/-- C8 (amended): the loop ends the stream immediately, without consulting
the parser, exactly when the trimmed line is the literal `[DONE]` or the
literal `data: [DONE]` — the field marker followed by exactly one space. -/
theorem sentinel_exact_forms_end_stream (parse : String → Option StreamEvent)
    (now : Nat) (nowIso : String) (r : RunState) (line : String) (rest : List String)
    (h : isTerminalLine line = true) :
    processLines parse now nowIso r (line :: rest) = completeStep r :=
  processLines_cons_done parse now nowIso r line rest (terminal_not_comment line h) h

/-- C8 witness: `data: [DONE]` ends the stream at once; the following frame
is never processed. -/
theorem sentinel_exact_forms_end_stream_witness :
    processLines (fun p => some (.thinking p none)) 0 "" witRun
      ["data: [DONE]", "data: x"] = completeStep witRun :=
  sentinel_exact_forms_end_stream (fun p => some (.thinking p none)) 0 "" witRun
    "data: [DONE]" ["data: x"] (by decide)

/-- C8 counterexample: the line `data:[DONE]` has, after stripping the
`data:` field marker and the (absent) single space, exactly the payload
`[DONE]`, yet the loop does not end the stream there: it hands the payload
to the parser, and the resulting dispatch mutates the state — unlike the
immediate completion the claim prescribes. -/
theorem sentinel_missing_space_counterexample :
    specSentinelPayload (jsTrim "data:[DONE]") = "[DONE]" ∧
    (processLines (fun p => some (.conversation_chunk p none none)) 3 "" witRun
      ["data:[DONE]"]).chat ≠ (completeStep witRun).chat :=
  ⟨rfl, by decide⟩

/-- C10: every stream-event handler — the per-kind dispatch, the completion
sweep, the error handler, and the transient sweep itself — leaves every
chat session whose identifier differs from the active chat identifier
unchanged. -/
theorem handlers_mutate_only_active_chat (now : Nat) (nowIso : String) (e : StreamEvent)
    (snap : List ChatSession) (s : ChatState) (i : Nat) (c : ChatSession)
    (hc : s.chats[i]? = some c) (hid : (c.id == s.activeChatId) = false) :
    (dispatchEvent now nowIso e s).chats[i]? = some c ∧
    (handleStreamComplete s).chats[i]? = some c ∧
    (handleStreamError now snap s).chats[i]? = some c ∧
    (removeThinkingMessages s).chats[i]? = some c :=
  ⟨dispatchEvent_inactive now nowIso e s i c hc hid,
   handleStreamComplete_inactive s i c hc hid,
   handleStreamError_inactive now snap s i c hc hid,
   removeThinkingMessages_inactive s i c hc hid⟩

def witChatB : ChatSession :=
  { id := "c2", title := "Other",
    messages := [{ id := "x1", type := .bot_thinking, content := some "old",
                   streamId := some "s1" }] }

def witStateTwo : ChatState :=
  { chats := [witChat, witChatB], activeChatId := "c1", sessionId := none,
    currentStreamId := some "s1", cartState := { itemCount := 0, total := 0 },
    isLoading := false }

/-- C10 witness: a `thinking` event for active chat `c1` leaves chat `c2`
byte-for-byte unchanged, even though `c2` holds an entry of the same
stream. -/
theorem handlers_mutate_only_active_chat_witness :
    (dispatchEvent 0 "" (.thinking "hi" none) witStateTwo).chats[1]? = some witChatB :=
  (handlers_mutate_only_active_chat 0 "" (.thinking "hi" none) [] witStateTwo 1 witChatB
    (by decide) (by decide)).1

lemma bool_not_true {b : Bool} (h : (!b) = true) : b = false := by
  cases b
  · rfl
  · simp at h

/-- Inverting membership in an `onActiveMessages` result for a chat that
matches the active identifier. -/
lemma mem_onActive_active {s : ChatState} {f : List ChatMessage → List ChatMessage}
    {c' : ChatSession} (hc' : c' ∈ (onActiveMessages s f).chats)
    (hact : (c'.id == s.activeChatId) = true) :
    ∃ c, c ∈ s.chats ∧ c' = { c with messages := f c.messages } := by
  simp only [onActiveMessages, List.mem_map] at hc'
  obtain ⟨c, hcmem, hceq⟩ := hc'
  by_cases hg : (c.id == s.activeChatId) = true
  · rw [if_pos hg] at hceq
    exact ⟨c, hcmem, hceq.symm⟩
  · rw [if_neg hg] at hceq
    subst hceq
    exact absurd hact hg

/-- C3 (amended): on normal completion and on stream error, every
`thinking` and `tool-executing` entry owned by the current request is
removed from the active chat; `conversation-chunk` entries are not part of
this sweep, and no sweep runs on cancellation. -/
theorem completion_sweep_removes_thinking_and_tool (now : Nat) (snap : List ChatSession)
    (s : ChatState) :
    (∀ c' ∈ (handleStreamComplete s).chats, (c'.id == s.activeChatId) = true →
      ∀ m ∈ c'.messages,
        ((m.type == MsgType.bot_thinking || m.type == MsgType.bot_tool_executing)
          && streamEq m.streamId s.currentStreamId) = false) ∧
    (∀ c' ∈ (handleStreamError now snap s).chats, (c'.id == s.activeChatId) = true →
      ∀ m ∈ c'.messages,
        ((m.type == MsgType.bot_thinking || m.type == MsgType.bot_tool_executing)
          && streamEq m.streamId s.currentStreamId) = false) := by
  have herr : streamEq (mkNetworkErrorMsg now).streamId s.currentStreamId = false := by
    cases h : s.currentStreamId <;> rfl
  constructor
  · intro c' hc' hact m hm
    have hc'' : c' ∈ (onActiveMessages { s with isLoading := false }
        (fun msgs => msgs.filter fun m =>
          !((m.type == MsgType.bot_thinking || m.type == MsgType.bot_tool_executing)
            && streamEq m.streamId s.currentStreamId))).chats := hc'
    obtain ⟨c, -, hceq⟩ := mem_onActive_active hc'' hact
    subst hceq
    simp only [] at hm
    exact bool_not_true (List.mem_filter.mp hm).2
  · intro c' hc' hact m hm
    simp only [handleStreamError] at hc'
    split at hc'
    · have hc'' : c' ∈ (onActiveMessages
          (removeThinkingMessages { s with isLoading := false })
          (fun msgs => msgs ++ [mkNetworkErrorMsg now])).chats := hc'
      obtain ⟨c₂, hc₂mem, hceq⟩ := mem_onActive_active hc'' hact
      subst hceq
      simp only [] at hm
      rcases List.mem_append.mp hm with hm₂ | hm₂
      · have hc₂'' : c₂ ∈ (onActiveMessages { s with isLoading := false }
            (fun msgs => msgs.filter fun m =>
              !((m.type == MsgType.bot_thinking || m.type == MsgType.bot_tool_executing)
                && streamEq m.streamId s.currentStreamId))).chats := hc₂mem
        obtain ⟨c₃, -, hceq₃⟩ := mem_onActive_active hc₂'' hact
        subst hceq₃
        simp only [] at hm₂
        exact bool_not_true (List.mem_filter.mp hm₂).2
      · rw [List.mem_singleton.mp hm₂]
        simp [herr]
    · have hc'' : c' ∈ (onActiveMessages { s with isLoading := false }
          (fun msgs => msgs.filter fun m =>
            !((m.type == MsgType.bot_thinking || m.type == MsgType.bot_tool_executing)
              && streamEq m.streamId s.currentStreamId))).chats := hc'
      obtain ⟨c, -, hceq⟩ := mem_onActive_active hc'' hact
      subst hceq
      simp only [] at hm
      exact bool_not_true (List.mem_filter.mp hm).2

def witC3Msg : ChatMessage :=
  { id := "thinking9", type := .bot_thinking, content := some "loading",
    streamId := some "s1" }

def witC3State : ChatState :=
  { chats := [{ id := "c1", title := "t",
                messages := [witC3Msg, { id := "m1", type := .user, content := some "hi" }] }],
    activeChatId := "c1", sessionId := none, currentStreamId := some "s1",
    cartState := { itemCount := 0, total := 0 }, isLoading := true }

/-- C3 witness: after completion of stream `s1`, the surviving user entry
of the active chat is not an `s1`-owned `thinking`/`tool` entry (and the
`thinking` entry itself is gone). -/
theorem completion_sweep_removes_thinking_and_tool_witness :
    ((({ id := "m1", type := .user, content := some "hi" } : ChatMessage).type
        == MsgType.bot_thinking
      || ({ id := "m1", type := .user, content := some "hi" } : ChatMessage).type
        == MsgType.bot_tool_executing)
      && streamEq ({ id := "m1", type := .user, content := some "hi" }
        : ChatMessage).streamId witC3State.currentStreamId) = false :=
  (completion_sweep_removes_thinking_and_tool 0 [] witC3State).1
    { id := "c1", title := "t",
      messages := [{ id := "m1", type := .user, content := some "hi" }] }
    (by decide) (by decide)
    { id := "m1", type := .user, content := some "hi" } (by decide)

def cexC3Chunk : ChatMessage :=
  { id := "chunk4", type := .bot_conversation_chunk, content := some "working on it",
    streamId := some "s1" }

def cexC3State : ChatState :=
  { chats := [{ id := "c1", title := "t", messages := [cexC3Chunk] }],
    activeChatId := "c1", sessionId := none, currentStreamId := some "s1",
    cartState := { itemCount := 0, total := 0 }, isLoading := true }

/-- C3 counterexample: a `conversation-chunk` entry owned by the completed
request survives the completion sweep unchanged, so the sweep does not
remove all three transient kinds as claimed. -/
theorem completion_sweep_counterexample :
    (handleStreamComplete cexC3State).chats =
      [{ id := "c1", title := "t", messages := [cexC3Chunk] }] := by
  decide

lemma handleThinking_activeChatId (now : Nat) (t : String) (sid : Option String)
    (s : ChatState) : (handleThinking now t sid s).activeChatId = s.activeChatId :=
  dispatchEvent_activeChatId now "" (.thinking t sid) s

lemma handleThinking_currentStreamId (now : Nat) (t : String) (sid : Option String)
    (s : ChatState) : (handleThinking now t sid s).currentStreamId = s.currentStreamId :=
  dispatchEvent_currentStreamId now "" (.thinking t sid) s

lemma foldl_handleThinking_activeChatId (now : Nat) : ∀ (texts : List String) (s : ChatState),
    (texts.foldl (fun acc t => handleThinking now t none acc) s).activeChatId =
      s.activeChatId := by
  intro texts
  induction texts with
  | nil => intro s; rfl
  | cons t rest ih =>
    intro s
    rw [List.foldl_cons, ih, handleThinking_activeChatId]

lemma foldl_handleThinking_currentStreamId (now : Nat) : ∀ (texts : List String) (s : ChatState),
    (texts.foldl (fun acc t => handleThinking now t none acc) s).currentStreamId =
      s.currentStreamId := by
  intro texts
  induction texts with
  | nil => intro s; rfl
  | cons t rest ih =>
    intro s
    rw [List.foldl_cons, ih, handleThinking_currentStreamId]

/-- One `thinking` event on an open request leaves exactly its own entry as
the only `thinking` entry owned by that request in the active chat. -/
lemma handleThinking_active_filter (now : Nat) (t sid : String) (s : ChatState)
    (hsid : s.currentStreamId = some sid) (hne : (sid == "") = false) :
    ∀ c' ∈ (handleThinking now t none s).chats, (c'.id == s.activeChatId) = true →
      c'.messages.filter
          (fun m => m.type == MsgType.bot_thinking && streamEq m.streamId (some sid)) =
        [mkThinkingMsg now t (some sid)] := by
  intro c' hc' hact
  have hc'' : c' ∈ (onActiveMessages s (fun msgs =>
      (msgs.filter fun m =>
        !(m.type == MsgType.bot_thinking && streamEq m.streamId s.currentStreamId))
        ++ [mkThinkingMsg now t s.currentStreamId])).chats := hc'
  obtain ⟨c, -, hceq⟩ := mem_onActive_active hc'' hact
  subst hceq
  simp only []
  rw [hsid, List.filter_append, List.filter_filter]
  have hnone : ∀ m : ChatMessage,
      ((m.type == MsgType.bot_thinking && streamEq m.streamId (some sid))
        && !(m.type == MsgType.bot_thinking && streamEq m.streamId (some sid))) = false := by
    intro m
    exact Bool.and_not_self _
  have hq : ((mkThinkingMsg now t (some sid)).type == MsgType.bot_thinking
      && streamEq (mkThinkingMsg now t (some sid)).streamId (some sid)) = true := by
    simp [mkThinkingMsg, jsOrStr, hne, streamEq]
  simp [hnone, hq]

/-- C4: emitting any non-empty run of consecutive `thinking` events for
the same open request leaves exactly one `thinking` entry owned by that
request in the active chat, carrying the text of the last event: each event
first removes the previous same-kind entry of the same request, then
appends its own. -/
theorem thinking_events_collapse_to_last (now : Nat) (texts : List String) (sid : String)
    (s : ChatState) (hsid : s.currentStreamId = some sid) (hne : (sid == "") = false)
    (hts : texts ≠ []) :
    ∀ c' ∈ (texts.foldl (fun acc t => handleThinking now t none acc) s).chats,
      (c'.id == s.activeChatId) = true →
      c'.messages.filter
          (fun m => m.type == MsgType.bot_thinking && streamEq m.streamId (some sid)) =
        [mkThinkingMsg now (texts.getLast hts) (some sid)] := by
  intro c' hc' hact
  have hdecomp : texts.foldl (fun acc t => handleThinking now t none acc) s =
      handleThinking now (texts.getLast hts) none
        (texts.dropLast.foldl (fun acc t => handleThinking now t none acc) s) := by
    conv_lhs => rw [← List.dropLast_append_getLast hts]
    rw [List.foldl_append]
    rfl
  rw [hdecomp] at hc'
  have hsid' : (texts.dropLast.foldl (fun acc t => handleThinking now t none acc)
      s).currentStreamId = some sid := by
    rw [foldl_handleThinking_currentStreamId]
    exact hsid
  have hact' : (c'.id == (texts.dropLast.foldl (fun acc t => handleThinking now t none acc)
      s).activeChatId) = true := by
    rw [foldl_handleThinking_activeChatId]
    exact hact
  exact handleThinking_active_filter now (texts.getLast hts) sid _ hsid' hne c' hc' hact'

/-- C4 witness: two consecutive `thinking` events leave exactly the second
entry. -/
theorem thinking_events_collapse_to_last_witness :
    (({ id := "c1", title := "New Chat",
        messages := [mkThinkingMsg 1 "b" (some "s1")] } : ChatSession)).messages.filter
        (fun m => m.type == MsgType.bot_thinking && streamEq m.streamId (some "s1")) =
      [mkThinkingMsg 1 "b" (some "s1")] :=
  thinking_events_collapse_to_last 1 ["a", "b"] "s1" witState rfl (by decide)
    (by decide)
    { id := "c1", title := "New Chat", messages := [mkThinkingMsg 1 "b" (some "s1")] }
    (by decide) (by decide)

/-- C5: the latest-wins removal in `handleRawProducts` and `handleRawCart`
only ever removes entries owned by the currently open request identity:
any entry not owned by the current stream — in particular a `product-list`
or `cart-view` entry appended during an earlier request — survives both
handlers, unmodified, in its chat. -/
theorem latest_wins_removes_only_current_request (now : Nat) (evP : RawProductsEvent)
    (evC : RawCartEvent) (s : ChatState) (m : ChatMessage) (i : Nat) (c : ChatSession)
    (hc : s.chats[i]? = some c) (hm : m ∈ c.messages)
    (hown : streamEq m.streamId s.currentStreamId = false) :
    (∃ c', (handleRawProducts now evP s).chats[i]? = some c' ∧ m ∈ c'.messages) ∧
    (∃ c', (handleRawCart now evC s).chats[i]? = some c' ∧ m ∈ c'.messages) :=
  ⟨dispatchEvent_msgKept now "" (.raw_products evP) s m hown i c hc hm,
   dispatchEvent_msgKept now "" (.raw_cart evC) s m hown i c hc hm⟩

def witC5Product : Product :=
  { id := "p1", name := "Rice", description := "", price := 10, category := "Grocery",
    provider := { id := "prov1", name := "Shop", delivery_available := true }, images := [] }

def witC5Msg : ChatMessage :=
  { id := "raw_products1", type := .bot_product_list,
    products := some [witC5Product], streamId := some "s1" }

def witC5State : ChatState :=
  { chats := [{ id := "c1", title := "t", messages := [witC5Msg] }],
    activeChatId := "c1", sessionId := none, currentStreamId := some "s2",
    cartState := { itemCount := 0, total := 0 }, isLoading := true }

/-- C5 witness: a product-list entry of request `s1` survives a
`raw_products` and a `raw_cart` event of the open request `s2`. -/
theorem latest_wins_removes_only_current_request_witness :
    (∃ c', (handleRawProducts 2 { products := [{ id := "p2" }] } witC5State).chats[0]? =
      some c' ∧ witC5Msg ∈ c'.messages) ∧
    (∃ c', (handleRawCart 2 { cart_items := none, cart_summary := none }
      witC5State).chats[0]? = some c' ∧ witC5Msg ∈ c'.messages) :=
  latest_wins_removes_only_current_request 2 { products := [{ id := "p2" }] }
    { cart_items := none, cart_summary := none } witC5State witC5Msg 0
    { id := "c1", title := "t", messages := [witC5Msg] } (by decide) (by decide) (by decide)

/-- C9 (amended): for a final-response event whose text contains the
payment-initialization phrase and neither session-initialization phrase,
the handler removes the `thinking` and `tool-executing` entries of the current request
entries (conversation-chunk entries are not removed by this branch) and
and appends exactly two entries to the active chat: a bot-text entry carrying
the response text, followed by a payment-initiated entry whose amount is
the number parsed from the first rupee-sign-prefixed numeral of the text
(`0` when no such numeral exists). -/
theorem payment_phrase_appends_two_entries (now : Nat) (nowIso : String) (ev : RespEvent)
    (s : ChatState) (text : String) (hc : ev.content = some text)
    (hpay : jsIncludes text "Your order has been initialized" = true)
    (hn1 : jsIncludes text "initialized a new shopping session" = false)
    (hn2 : jsIncludes text "Session Ready" = false)
    (i : Nat) (c : ChatSession) (hci : s.chats[i]? = some c)
    (hact : (c.id == s.activeChatId) = true) :
    (handleResponse now nowIso ev s).chats[i]? = some { c with messages :=
      (c.messages.filter fun m =>
          !((m.type == MsgType.bot_thinking || m.type == MsgType.bot_tool_executing)
            && streamEq m.streamId s.currentStreamId))
        ++ [{ id := "response_" ++ toString now, type := .bot, content := some text },
            { id := "payment_" ++ toString now, type := .bot_payment_initiated,
              orderId := some ("order_" ++ toString now),
              amount := some (rupeeAmount text), currency := some "INR" }] } := by
  have hco1 : includesO ev.content "initialized a new shopping session" = false := by
    rw [hc]; exact hn1
  have hco2 : includesO ev.content "Session Ready" = false := by
    rw [hc]; exact hn2
  have hco3 : includesO ev.content "Your order has been initialized" = true := by
    rw [hc]; exact hpay
  simp only [handleResponse]
  rw [if_neg (by simp [hco1, hco2]), if_pos hco3]
  rw [onActiveMessages_chats_getElem, updSession_chats, hci]
  simp only [Option.map_some']
  rw [if_pos (by rw [updSession_activeChatId]; exact hact)]
  rw [hc]
  simp only [updSession_currentStreamId, Option.getD_some]

def witC9Ev : RespEvent :=
  { content := some "Your order has been initialized. Amount: ₹42.50" }

def witC9State : ChatState :=
  { chats := [{ id := "c1", title := "t", messages := [mkThinkingMsg 3 "w" (some "s1")] }],
    activeChatId := "c1", sessionId := none, currentStreamId := some "s1",
    cartState := { itemCount := 0, total := 0 }, isLoading := true }

def witC9Out : List ChatMessage :=
  [{ id := "response_7", type := .bot,
     content := some "Your order has been initialized. Amount: ₹42.50" },
   { id := "payment_7", type := .bot_payment_initiated, orderId := some "order_7",
     amount := some (rupeeAmount "Your order has been initialized. Amount: ₹42.50"),
     currency := some "INR" }]

/-- C9 witness: the thinking entry is swept; the bot text and a payment
entry carrying the parsed rupee amount are appended. -/
theorem payment_phrase_appends_two_entries_witness :
    (handleResponse 7 "" witC9Ev witC9State).chats[0]? =
      some { id := "c1", title := "t", messages := witC9Out } := by
  have h := payment_phrase_appends_two_entries 7 "" witC9Ev witC9State
    "Your order has been initialized. Amount: ₹42.50" rfl (by decide) (by decide) (by decide)
    0 { id := "c1", title := "t", messages := [mkThinkingMsg 3 "w" (some "s1")] } rfl
    (by decide)
  rw [h]
  rfl

def cexC9Chunk : ChatMessage :=
  { id := "chunk2", type := .bot_conversation_chunk, content := some "stage",
    streamId := some "s1" }

def cexC9State : ChatState :=
  { chats := [{ id := "c1", title := "t", messages := [cexC9Chunk] }],
    activeChatId := "c1", sessionId := none, currentStreamId := some "s1",
    cartState := { itemCount := 0, total := 0 }, isLoading := true }

def cexC9Ev : RespEvent :=
  { content := some "Your order has been initialized. Pay ₹10 now" }

/-- C9 counterexample: the payment branch removes only `thinking` and
`tool-executing` entries; a `conversation-chunk` entry owned by the current
request — one of the claimed transient kinds — survives in front of the
two appended entries, so the claim as stated is false. -/
theorem payment_phrase_counterexample :
    (handleResponse 5 "" cexC9Ev cexC9State).chats =
      [{ id := "c1", title := "t",
         messages := [cexC9Chunk,
           { id := "response_5", type := .bot,
             content := some "Your order has been initialized. Pay ₹10 now" },
           { id := "payment_5", type := .bot_payment_initiated, orderId := some "order_5",
             amount := some (rupeeAmount "Your order has been initialized. Pay ₹10 now"),
             currency := some "INR" }] }] := by
  rfl

lemma sendPrelude_shape (now : Nat) (sid msg : String) (appendMessage : Bool)
    (r : RunState) (c : ChatSession) (hchats : r.chat.chats = [c])
    (hact : (c.id == r.chat.activeChatId) = true) :
    sendPrelude now sid msg appendMessage r.chat =
      { chats := [{ c with messages :=
            c.messages ++ (if appendMessage then [mkUserMsg now msg] else []) }],
        activeChatId := r.chat.activeChatId, sessionId := r.chat.sessionId,
        currentStreamId := some sid, cartState := r.chat.cartState,
        isLoading := true } := by
  cases appendMessage with
  | true =>
    simp only [sendPrelude, onActiveMessages, if_pos]
    simp [hchats, eq_of_beq hact]
  | false =>
    simp only [sendPrelude, if_neg]
    simp [hchats]

/-- C7: a transport failure before any frame is read fires `onError`
exactly once (and never `onComplete`); the sweep finds no entry owned by
the fresh request, and exactly one durable network-error entry is appended
if and only if the transcript already contained prior entries — the
decision reads the render snapshot captured before the user entry of this
request was appended, so the just-appended user entry does not count. -/
theorem transport_failure_single_error (parse : String → Option StreamEvent) (now : Nat)
    (nowIso : String) (sid msg : String) (appendMessage : Bool) (r : RunState)
    (c : ChatSession) (hchats : r.chat.chats = [c])
    (hact : (c.id == r.chat.activeChatId) = true)
    (hfresh : ∀ m ∈ c.messages, streamEq m.streamId (some sid) = false) :
    (sendMessageRun parse now nowIso sid msg appendMessage .fail r).errors = r.errors + 1 ∧
    (sendMessageRun parse now nowIso sid msg appendMessage .fail r).completions =
      r.completions ∧
    (sendMessageRun parse now nowIso sid msg appendMessage .fail r).chat.chats =
      [{ c with messages :=
          (c.messages ++ (if appendMessage then [mkUserMsg now msg] else [])) ++
          (if c.messages.isEmpty
            then ([] : List ChatMessage) else [mkNetworkErrorMsg now]) }] := by
  refine ⟨rfl, rfl, ?_⟩
  have hrun : (sendMessageRun parse now nowIso sid msg appendMessage .fail r).chat =
      handleStreamError now r.chat.chats (sendPrelude now sid msg appendMessage r.chat) :=
    rfl
  rw [hrun, sendPrelude_shape now sid msg appendMessage r c hchats hact, hchats]
  have huser : ∀ m ∈ c.messages ++ (if appendMessage then [mkUserMsg now msg] else []),
      streamEq m.streamId (some sid) = false := by
    intro m hm
    rcases List.mem_append.mp hm with h | h
    · exact hfresh m h
    · split at h
      · rw [List.mem_singleton.mp h]; rfl
      · simp at h
  have hfilter : (c.messages ++ (if appendMessage then [mkUserMsg now msg] else [])).filter
      (fun m =>
        !((m.type == MsgType.bot_thinking || m.type == MsgType.bot_tool_executing)
          && streamEq m.streamId (some sid))) =
      c.messages ++ (if appendMessage then [mkUserMsg now msg] else []) := by
    apply List.filter_eq_self.mpr
    intro m hm
    simp [huser m hm]
  generalize hg : c.messages ++ (if appendMessage then [mkUserMsg now msg] else []) = X
    at hfilter ⊢
  simp only [handleStreamError, removeThinkingMessages, onActiveMessages]
  dsimp only [List.map, List.find?]
  rw [hact, hfilter]
  cases hcm : c.messages with
  | nil => simp [hcm]
  | cons mh mt =>
    simp [hcm]
    exact eq_of_beq hact

def witC7Old : ChatMessage := { id := "m0", type := .user, content := some "earlier" }

def witC7Chat : ChatState :=
  { chats := [{ id := "c1", title := "t", messages := [witC7Old] }],
    activeChatId := "c1", sessionId := none, currentStreamId := none,
    cartState := { itemCount := 0, total := 0 }, isLoading := false }

def witC7Run : RunState := { chat := witC7Chat, completions := 0, errors := 0 }

/-- C7 witness: on a transcript with prior content, a transport failure
yields one `onError`, no `onComplete`, and exactly one appended durable
network-error entry after the user entry. -/
theorem transport_failure_single_error_witness :
    (sendMessageRun (fun _ => none) 9 "" "s1" "hello" true .fail witC7Run).errors = 1 ∧
    (sendMessageRun (fun _ => none) 9 "" "s1" "hello" true .fail witC7Run).completions = 0 ∧
    (sendMessageRun (fun _ => none) 9 "" "s1" "hello" true .fail witC7Run).chat.chats =
      [{ id := "c1", title := "t",
         messages := [witC7Old, mkUserMsg 9 "hello", mkNetworkErrorMsg 9] }] := by
  have h := transport_failure_single_error (fun _ => none) 9 "" "s1" "hello" true witC7Run
    { id := "c1", title := "t", messages := [witC7Old] } rfl (by decide) (by decide)
  exact ⟨h.1, h.2.1, h.2.2.trans (by rfl)⟩

lemma sendPrelude_currentStreamId (now : Nat) (streamId msg : String) (appendMessage : Bool)
    (s : ChatState) :
    (sendPrelude now streamId msg appendMessage s).currentStreamId = some streamId := by
  simp only [sendPrelude]
  split <;> rfl

/-- C2 (amended): when a second `sendMessage` interrupts a first request
that is still open, the first request is aborted before the second stream
opens and fires neither `onComplete` nor `onError`; but additionally the
aborted first call clears the shared `isStreamingRef` in its `finally`
after the second call has set it, so the second request's read loop never
iterates: the whole scenario fires no callback at all — the completion and
error counters are unchanged — and no frame of the second stream is
processed.  No sweep ever runs, so every entry present when the abort
happens — including the first request's `thinking`/`tool`/`chunk` entries
— persists into the final transcript. -/
theorem cancellation_suppresses_first_request (parse : String → Option StreamEvent)
    (now : Nat) (nowIso : String) (id1 msg1 : String) (fr1 : List String)
    (id2 msg2 : String) (ls2 : List String) (r : RunState)
    (hterm : ∀ l ∈ fr1, isTerminalLine l = false) :
    (cancelScenario parse now nowIso id1 msg1 fr1 id2 msg2 (.ok ls2) r).completions =
      r.completions ∧
    (cancelScenario parse now nowIso id1 msg1 fr1 id2 msg2 (.ok ls2) r).errors = r.errors ∧
    (∀ (m : ChatMessage) (i : Nat) (c : ChatSession),
      (consumeLines parse now nowIso { r with chat := sendPrelude now id1 msg1 true r.chat }
        fr1).chat.chats[i]? = some c →
      m ∈ c.messages →
      ∃ c', (cancelScenario parse now nowIso id1 msg1 fr1 id2 msg2
          (.ok ls2) r).chat.chats[i]? = some c' ∧ m ∈ c'.messages) := by
  have hmidc := consumeLines_counters parse now nowIso fr1
    { r with chat := sendPrelude now id1 msg1 true r.chat } hterm
  have hany : fr1.any isTerminalLine = false := by
    rw [List.any_eq_false]
    intro l hl
    simp [hterm l hl]
  have hscen : cancelScenario parse now nowIso id1 msg1 fr1 id2 msg2 (.ok ls2) r =
      { consumeLines parse now nowIso
          { r with chat := sendPrelude now id1 msg1 true r.chat } fr1 with
        chat := sendPrelude now id2 msg2 true
          (consumeLines parse now nowIso
            { r with chat := sendPrelude now id1 msg1 true r.chat } fr1).chat } := by
    simp only [cancelScenario]
    rw [hany]
    rfl
  refine ⟨?_, ?_, ?_⟩
  · rw [hscen]
    exact hmidc.1
  · rw [hscen]
    exact hmidc.2
  · intro m i c hc hm
    have k1 : msgKept (consumeLines parse now nowIso
        { r with chat := sendPrelude now id1 msg1 true r.chat } fr1).chat
        (sendPrelude now id2 msg2 true (consumeLines parse now nowIso
          { r with chat := sendPrelude now id1 msg1 true r.chat } fr1).chat) m :=
      sendPrelude_msgKept now id2 msg2 true _ m
    rw [hscen]
    exact k1 i c hc hm

def witC2Parse : String → Option StreamEvent :=
  fun f => if f == "T1" then some (.thinking "Searching" none) else none

/-- C2 witness: with one `thinking` frame consumed by request `s1` before
the interrupting `sendMessage`, the scenario fires no callback at all —
the cleared `isStreamingRef` keeps the second read loop from iterating —
and the first request's `thinking` entry persists. -/
theorem cancellation_suppresses_first_request_witness :
    (cancelScenario witC2Parse 7 "iso" "s1" "m1" ["data: T1"] "s2" "m2"
      (.ok ["data: [DONE]"]) witRun).completions = 0 ∧
    (cancelScenario witC2Parse 7 "iso" "s1" "m1" ["data: T1"] "s2" "m2"
      (.ok ["data: [DONE]"]) witRun).errors = 0 ∧
    (∃ c', (cancelScenario witC2Parse 7 "iso" "s1" "m1" ["data: T1"] "s2" "m2"
        (.ok ["data: [DONE]"]) witRun).chat.chats[0]? = some c' ∧
      mkThinkingMsg 7 "Searching" (some "s1") ∈ c'.messages) := by
  have h := cancellation_suppresses_first_request witC2Parse 7 "iso" "s1" "m1" ["data: T1"]
    "s2" "m2" ["data: [DONE]"] witRun (by decide)
  exact ⟨h.1, h.2.1, h.2.2 (mkThinkingMsg 7 "Searching" (some "s1")) 0
    { id := "c1", title := "New Chat",
      messages := [mkUserMsg 7 "m1", mkThinkingMsg 7 "Searching" (some "s1")] }
    (by decide) (by decide)⟩

/-- C2 counterexample: first request `s1` receives one `thinking` frame and
is then interrupted by a second `sendMessage`; once the scenario settles,
the `thinking` entry of the first stream is still in the transcript,
contradicting the claim that every transient entry owned by the first
request is removed. -/
theorem cancellation_stale_entry_counterexample :
    mkThinkingMsg 7 "Searching" (some "s1") ∈
      ((cancelScenario
        (fun f => if f == "T1" then some (.thinking "Searching" none) else none)
        7 "iso" "s1" "m1" ["data: T1"] "s2" "m2" (.ok ["data: [DONE]"]) witRun).chat.chats.headD
        { id := "", title := "", messages := [] }).messages := by
  decide

end OndcMcp
